import Mathlib

/-!
Shallow embedding of the `playwright_plus` package (files
`web_intercept.py`, `browser_surf.py`, `utils/exceptions.py`) and proofs
about its interception loop, decorators and error handling.

Python dictionaries are modelled as ordered association lists (Python dicts
preserve insertion order and the code builds them without duplicate keys),
Python scalars as the corresponding Lean values and Python exceptions as an
explicit `Except` error channel.  Durations are modelled in integer
milliseconds.  The behaviour of the wrapped browser library (which responses
arrive, how long calls take, whether navigation fails) is an explicit
environment parameter of each modelled function.
-/

set_option autoImplicit false

/-- Model of a Python value as it appears in this code base: `None`,
booleans, integers, strings, (ordered) dicts and lists. -/
inductive PyVal where
  | pynone : PyVal
  | pybool (b : Bool) : PyVal
  | pyint (n : Int) : PyVal
  | pystr (s : String) : PyVal
  | pydict (fields : List (String × PyVal)) : PyVal
  | pylist (elems : List PyVal) : PyVal

open PyVal

/-- Python truthiness of a value (`bool(v)`). -/
def PyVal.truthy : PyVal → Bool
  | pynone => false
  | pybool b => b
  | pyint n => n != 0
  | pystr s => !(s == "")
  | pydict [] => false
  | pydict (_ :: _) => true
  | pylist [] => false
  | pylist (_ :: _) => true

/-- Whether the value is a Python dict. -/
def PyVal.isDict : PyVal → Bool
  | pydict _ => true
  | _ => false

/-- First-match association-list lookup, the model of `d[k]` / `d.get(k)`
reads on a Python dict (dicts are built without duplicate keys). -/
def alookup : List (String × PyVal) → String → Option PyVal
  | [], _ => Option.none
  | (k', v) :: rest, k => if k' = k then some v else alookup rest k

/-- Model of Python dict assignment `d[k] = v`: replace the first binding of
`k` in place, else append, preserving insertion order. -/
def assocSet : List (String × PyVal) → String → PyVal → List (String × PyVal)
  | [], k, v => [(k, v)]
  | (k', v') :: rest, k, v =>
      if k' = k then (k, v) :: rest else (k', v') :: assocSet rest k v

/-- Truthiness of an optional lookup result, the model of the Python test
`if d.get(k):` (a missing key reads as `None`, which is falsy). -/
def truthyOpt : Option PyVal → Bool
  | Option.none => false
  | some v => v.truthy

/-- Python exceptions that the modelled code can raise. -/
inductive PyErr where
  | unboundLocal : PyErr
  | attributeError : PyErr
  | typeError : PyErr
  | timeoutError : PyErr
deriving DecidableEq

/-- Character-list match: `needle` is an initial segment of `hay`. -/
def chMatch : List Char → List Char → Bool
  | [], _ => true
  | _ :: _, [] => false
  | a :: as, b :: bs => a == b && chMatch as bs

/-- Character-list search: `needle` occurs contiguously in `hay`. -/
def chFind (needle : List Char) : List Char → Bool
  | [] => chMatch needle []
  | hay@(_ :: rest) => chMatch needle hay || chFind needle rest

/-- Model of the Python substring test `sub in s`. -/
def strIn (sub s : String) : Bool :=
  chFind sub.data s.data

/-- Model of `d[k] = v` on an arbitrary value: item assignment on a dict
updates it, on any other value it raises `TypeError`. -/
def setItem : PyVal → String → PyVal → Except PyErr PyVal
  | pydict fs, k, v => Except.ok (pydict (assocSet fs k v))
  | _, _, _ => Except.error PyErr.typeError

/-- Attribute read of `.get`: `v.get(k)` succeeds on a dict and raises
`AttributeError` on any other value. -/
def pyGet : PyVal → String → Except PyErr (Option PyVal)
  | pydict fs, k => Except.ok (alookup fs k)
  | _, _ => Except.error PyErr.attributeError

/-- Result of decoding a response body: the decoded value, or the message of
the exception raised by `response.json()`. -/
def RespJson : Type := Except String PyVal

/-- A response event delivered to a page's `response` listener: the
response URL together with the outcome of `response.json()`. -/
structure Event where
  url : String
  respJson : Except String PyVal

/-- Model of `set_json_to_page` (web_intercept.py lines 21-51): computes the
value stored into `page.target_json` from the decoded `buffer`.  Reading
`buffer.get("error")` on a non-dict buffer raises `AttributeError`. -/
def set_json_to_page (buffer : PyVal) : Except PyErr PyVal :=
  match buffer with
  | pydict fs =>
      if truthyOpt (alookup fs "error") then
        Except.ok (pydict
          [("error", pystr "PlaywrightInterceptError"),
           ("error_message", (alookup fs "error").getD pynone),
           ("data", pydict [])])
      else
        Except.ok (pydict fs)
  | _ => Except.error PyErr.attributeError

/-- Decoded buffer produced by the handlers: the response's JSON on success,
or the dict `{"error": "exception when trying to intercept:<msg>"}` built in
the `except` branch around `response.json()`. -/
def bufferOf (respJson : Except String PyVal) : PyVal :=
  match respJson with
  | Except.ok v => v
  | Except.error m =>
      pydict [("error", pystr ("exception when trying to intercept:" ++ m))]

/-- Model of the handler returned by `construct_handle_response`
(web_intercept.py lines 54-89): given the current `page.target_json`
(`Option.none` when the attribute was never set), returns the new one. -/
def construct_handle_response (json_url_subpart : String) (ev : Event)
    (pageTargetJson : Option PyVal) : Except PyErr (Option PyVal) :=
  if strIn json_url_subpart ev.url then
    match set_json_to_page (bufferOf ev.respJson) with
    | Except.ok v => Except.ok (some v)
    | Except.error e => Except.error e
  else
    Except.ok pageTargetJson

/-- Model of the inline `handle_response` closures of
`intercept_json_playwright` (lines 165-181) and of the `_old` / `_multiple`
variants (identical up to the swallowed `CancelledError`): one listener
invocation, mutating the closure variable `target_json` (here `tj`). -/
def applyEvent (json_url_subpart : String) (tj : PyVal) (ev : Event) :
    Except PyErr PyVal :=
  if strIn json_url_subpart ev.url then
    match bufferOf ev.respJson with
    | pydict fs =>
        if truthyOpt (alookup fs "error") then
          setItem tj "data" (pydict
            [("error", pystr "PlaywrightInterceptError"),
             ("error_message", (alookup fs "error").getD pynone),
             ("data", pydict [])])
        else
          setItem tj "data" (pydict fs)
    | _ => Except.error PyErr.attributeError
  else
    Except.ok tj

/-- Sequential delivery of a batch of response events to the inline
handler. -/
def applyEvents (json_url_subpart : String) :
    PyVal → List Event → Except PyErr PyVal
  | tj, [] => Except.ok tj
  | tj, ev :: rest =>
      match applyEvent json_url_subpart tj ev with
      | Except.ok tj1 => applyEvents json_url_subpart tj1 rest
      | Except.error e => Except.error e

/-- Arguments of `intercept_json_playwright` (web_intercept.py lines
93-104).  The user callbacks `json_detect_error` / `json_parse_result` are
modelled as optional Lean functions; for `captcha_solver_function` only its
callability matters here (its per-call return values live in the
environment, since they depend on the live page). -/
structure IJPArgs where
  page_url : String
  json_url_subpart : String
  json_detect_error : Option (PyVal → Bool × PyVal)
  json_parse_result : Option (PyVal → PyVal)
  captcha_solver_callable : Bool
  max_refresh : Nat
  timeout : Nat

/-- Environment of one `intercept_json_playwright` run: what the wrapped
browser library does.  `gotoDur` is the time (ms) consumed by the initial
`page.goto` (whose exceptions the code swallows); `events.getD i []` are the
response events delivered before the `i`-th read of `target_json`;
`solver.getD i (false, false)` is the `(ask_for_refresh, captcha_solved)`
pair returned by the captcha solver when called in iteration `i`;
`work.getD i 0` is the measured duration (ms) of iteration `i` before the
sleep check and `extra.getD i 0` the additional slack measured after it. -/
structure IJPEnv where
  gotoDur : Nat
  events : List (List Event)
  solver : List (Bool × Bool)
  work : List Nat
  extra : List Nat

/-- Mutable locals of the poll loop of `intercept_json_playwright`.
`result` and `is_error` are `Option`-valued because Python locals are
unbound until first assignment; `iters` counts started loop iterations. -/
structure LoopSt where
  tj : PyVal
  result : Option PyVal
  is_error : Option Bool
  captcha : Bool
  time_spent : Nat
  nb_refresh : Nat
  iters : Nat

/-- The fresh result dict `{"error": None, "error_message": None, "data":
deepcopy(target_json)}` built at each iteration (line 206). -/
def mkResult (payload : PyVal) : PyVal :=
  pydict [("error", pynone), ("error_message", pynone), ("data", payload)]

/-- The error dict built when the read `target_json` is empty (lines
217-221 and 360-364). -/
def emptyJsonResult : PyVal :=
  pydict [("error", pystr "PlaywrightInterceptError"),
          ("error_message",
           pystr "An empty json was collected after calling the hidden API."),
          ("data", pydict [])]

/-- One read step `target_json = target_json.get("data", {})` (line 200):
`.get` on a non-dict raises `AttributeError`. -/
def readStep : PyVal → Except PyErr PyVal
  | pydict fs => Except.ok ((alookup fs "data").getD (pydict []))
  | _ => Except.error PyErr.attributeError

/-- Event delivery followed by the read step: everything that happens to
`target_json` between the top of iteration `st.iters` and the value bound
by line 200. -/
def iterRead (args : IJPArgs) (env : IJPEnv) (st : LoopSt) :
    Except PyErr PyVal :=
  match applyEvents args.json_url_subpart st.tj (env.events.getD st.iters []) with
  | Except.ok tj1 => readStep tj1
  | Except.error e => Except.error e

/-- The error-detection stage (lines 210-212): `is_error = False`, then the
callback overwrites the pair when supplied. -/
def detectStage (detect : Option (PyVal → Bool × PyVal)) (r : PyVal) :
    Bool × PyVal :=
  match detect with
  | some f => f r
  | Option.none => (false, r)

/-- The test `result.get("error") == "CaptchaRaisedError"` (line 224),
given the value of `result.get("error")`. -/
def isCaptchaStr : Option PyVal → Bool
  | some (pystr s) => s == "CaptchaRaisedError"
  | _ => false

/-- The captcha block and the sleep/accounting tail of a non-breaking loop
iteration (lines 232-257): possibly call the solver, possibly refresh, then
sleep up to the 500 ms floor and add the measured duration to
`time_spent`. -/
def continueTail (args : IJPArgs) (env : IJPEnv) (st : LoopSt) : LoopSt :=
  let st1 :=
    if st.captcha && args.captcha_solver_callable then
      let ask := (env.solver.getD st.iters (false, false)).1
      let solved := (env.solver.getD st.iters (false, false)).2
      let stA :=
        if solved then
          { st with captcha := false, tj := pydict [], result := some (pydict []) }
        else st
      if ask then { stA with nb_refresh := stA.nb_refresh + 1 } else stA
    else st
  let d := env.work.getD st.iters 0
  let dur := if d < 500 then 500 + env.extra.getD st.iters 0
             else d + env.extra.getD st.iters 0
  { st1 with time_spent := st1.time_spent + dur, iters := st1.iters + 1 }

/-- One iteration of the poll loop of `intercept_json_playwright` (lines
196-257).  `Sum.inl` is the `break` exit, `Sum.inr` the fall-through to the
next `while` test. -/
def iterBody (args : IJPArgs) (env : IJPEnv) (st : LoopSt) :
    Except PyErr (LoopSt ⊕ LoopSt) :=
  match iterRead args env st with
  | Except.error e => Except.error e
  | Except.ok payload =>
      let dres := detectStage args.json_detect_error (mkResult payload)
      let ie := dres.1
      let res1 := dres.2
      if payload.truthy then
        match pyGet res1 "error" with
        | Except.error e => Except.error e
        | Except.ok ev =>
            if isCaptchaStr ev then
              Except.ok (Sum.inr (continueTail args env
                { st with tj := payload, result := some res1,
                          is_error := some ie, captcha := true }))
            else
              Except.ok (Sum.inl
                { st with tj := payload, result := some res1,
                          is_error := some ie, iters := st.iters + 1 })
      else
        Except.ok (Sum.inr (continueTail args env
          { st with tj := payload, result := some emptyJsonResult,
                    is_error := some ie }))

/-- The `while (time_spent <= timeout) and (nb_refresh < max_refresh)` loop
(line 196), written with explicit fuel.  Fuel exhaustion returns the current
state; `stdFuel` below is proved large enough that this never matters. -/
def pollLoop (args : IJPArgs) (env : IJPEnv) :
    Nat → LoopSt → Except PyErr LoopSt
  | 0, st => Except.ok st
  | fuel + 1, st =>
      if st.time_spent ≤ args.timeout ∧ st.nb_refresh < args.max_refresh then
        match iterBody args env st with
        | Except.error e => Except.error e
        | Except.ok (Sum.inl stB) => Except.ok stB
        | Except.ok (Sum.inr stC) => pollLoop args env fuel stC
      else
        Except.ok st

/-- Fuel that always suffices for `pollLoop` (each iteration consumes at
least 500 ms of the budget). -/
def stdFuel (args : IJPArgs) : Nat :=
  args.timeout / 500 + 2

/-- State of the poll-loop locals before the first `while` test. -/
def initSt (env : IJPEnv) : LoopSt :=
  { tj := pydict [], result := Option.none, is_error := Option.none,
    captcha := false, time_spent := env.gotoDur, nb_refresh := 0, iters := 0 }

/-- The poll loop of `intercept_json_playwright` run from its initial
state. -/
def ijpRun (args : IJPArgs) (env : IJPEnv) : Except PyErr LoopSt :=
  pollLoop args env (stdFuel args) (initSt env)

/-- The epilogue `if (not is_error) and json_parse_result: result =
json_parse_result(result)` followed by `return result` (lines 260-263).
Reading the never-assigned locals raises `UnboundLocalError`. -/
def ijpFinalize (args : IJPArgs) (st : LoopSt) : Except PyErr PyVal :=
  match st.is_error with
  | Option.none => Except.error PyErr.unboundLocal
  | some ie =>
      match st.result with
      | Option.none => Except.error PyErr.unboundLocal
      | some r =>
          match args.json_parse_result with
          | some f => if ie then Except.ok r else Except.ok (f r)
          | Option.none => Except.ok r

/-- Model of `intercept_json_playwright` (web_intercept.py lines 92-263):
swallowed `goto`, poll loop, epilogue. -/
def intercept_json_playwright (args : IJPArgs) (env : IJPEnv) :
    Except PyErr PyVal :=
  match ijpRun args env with
  | Except.ok st => ijpFinalize args st
  | Except.error e => Except.error e

/-- Model of `request_json_playwright` (lines 512-562): call
`intercept_json_playwright` with `page_url = json_url_subpart = json_url`
and the remaining arguments at their defaults. -/
def request_json_playwright (json_url : String)
    (json_detect_error : Option (PyVal → Bool × PyVal))
    (json_parse_result : Option (PyVal → PyVal)) (env : IJPEnv) :
    Except PyErr PyVal :=
  intercept_json_playwright
    { page_url := json_url, json_url_subpart := json_url,
      json_detect_error := json_detect_error,
      json_parse_result := json_parse_result,
      captcha_solver_callable := false, max_refresh := 1, timeout := 4000 }
    env

/-- Outcome of the guarded `page.goto` in `intercept_json_playwright_old` /
`_multiple`: success, a `PlaywrightTimeoutError` with message, or another
exception with message. -/
inductive GotoOut where
  | gok : GotoOut
  | timeoutErr (msg : String) : GotoOut
  | otherErr (msg : String) : GotoOut

/-- Arguments of `intercept_json_playwright_old` (lines 267-275). -/
structure OldArgs where
  page_url : String
  json_url_subpart : String
  json_detect_error : Option (PyVal → Bool × PyVal)
  json_parse_result : Option (PyVal → PyVal)
  wait_seconds : Nat

/-- Environment of an `_old` / `_multiple` run: the `goto` outcome and the
response events delivered before the `i`-th read of `target_json` (during
the preceding `page.wait_for_timeout(500)`, or during `goto` for `i = 0`). -/
structure OldEnv where
  goto : GotoOut
  events : List (List Event)

/-- Locals of the `for` loop of `intercept_json_playwright_old`: `result`
is unbound until the first iteration assigns it. -/
structure OldSt where
  tj : PyVal
  result : Option PyVal
  iters : Nat

/-- The `for _ in range(wait_seconds * 2)` loop of
`intercept_json_playwright_old` (lines 354-368), with the remaining
iteration count as first argument. -/
def oldLoop (args : OldArgs) (env : OldEnv) :
    Nat → OldSt → Except PyErr OldSt
  | 0, st => Except.ok st
  | n + 1, st =>
      match applyEvents args.json_url_subpart st.tj
              (env.events.getD st.iters []) with
      | Except.error e => Except.error e
      | Except.ok tj1 =>
          match readStep tj1 with
          | Except.error e => Except.error e
          | Except.ok payload =>
              if payload.truthy then
                Except.ok { st with tj := payload,
                                    result := some (mkResult payload),
                                    iters := st.iters + 1 }
              else
                oldLoop args env n
                  { st with tj := payload, result := some emptyJsonResult,
                            iters := st.iters + 1 }

/-- The `_old` loop run from its initial state with its full
`wait_seconds * 2` iteration budget. -/
def oldLoopRun (args : OldArgs) (env : OldEnv) : Except PyErr OldSt :=
  oldLoop args env (args.wait_seconds * 2)
    { tj := pydict [], result := Option.none, iters := 0 }

/-- Model of `intercept_json_playwright_old` (lines 266-376).  After the
loop, `if json_detect_error:` runs the callback on the possibly-unbound
`result`; with no callback, `if (not is_error) and json_parse_result:`
reads the never-assigned `is_error` and raises `UnboundLocalError`. -/
def intercept_json_playwright_old (args : OldArgs) (env : OldEnv) :
    Except PyErr PyVal :=
  match env.goto with
  | GotoOut.timeoutErr m =>
      Except.ok (pydict [("error", pystr "PlaywrightTimeoutError"),
                         ("error_message", pystr m), ("data", pydict [])])
  | GotoOut.otherErr m =>
      Except.ok (pydict [("error", pystr "PlaywrightGotoError"),
                         ("error_message", pystr m), ("data", pydict [])])
  | GotoOut.gok =>
      match oldLoopRun args env with
      | Except.error e => Except.error e
      | Except.ok stF =>
          match args.json_detect_error with
          | some f =>
              match stF.result with
              | Option.none => Except.error PyErr.unboundLocal
              | some r =>
                  let ie := (f r).1
                  let r1 := (f r).2
                  match args.json_parse_result with
                  | some g => if ie then Except.ok r1 else Except.ok (g r1)
                  | Option.none => Except.ok r1
          | Option.none => Except.error PyErr.unboundLocal

/-- Arguments of `intercept_json_playwright_multiple` (lines 380-389). -/
structure MultArgs where
  page_url : String
  json_url_subpart : String
  json_detect_error : Option (PyVal → Bool × PyVal)
  json_parse_result : Option (PyVal → PyVal)
  wait_seconds : Nat
  expect_more : Nat

/-- Locals of the `for` loop of `intercept_json_playwright_multiple`
(`is_error` and `result` are initialised before the loop, lines 477-482). -/
structure MultSt where
  tj : PyVal
  result : PyVal
  is_error : Bool
  expect_more : Nat
  iters : Nat

/-- The `for _ in range(wait_seconds * 2)` loop of
`intercept_json_playwright_multiple` (lines 484-504). -/
def multLoop (args : MultArgs) (env : OldEnv) :
    Nat → MultSt → Except PyErr MultSt
  | 0, st => Except.ok st
  | n + 1, st =>
      match applyEvents args.json_url_subpart st.tj
              (env.events.getD st.iters []) with
      | Except.error e => Except.error e
      | Except.ok tj1 =>
          match readStep tj1 with
          | Except.error e => Except.error e
          | Except.ok payload =>
              if payload.truthy then
                let r0 := mkResult payload
                let p :=
                  match args.json_detect_error with
                  | some f => f r0
                  | Option.none => (st.is_error, r0)
                if p.1 = false ∨ st.expect_more = 0 then
                  Except.ok { st with tj := payload, result := p.2,
                                      is_error := p.1, iters := st.iters + 1 }
                else
                  multLoop args env n
                    { st with tj := payload, result := p.2, is_error := p.1,
                              expect_more := st.expect_more - 1,
                              iters := st.iters + 1 }
              else
                multLoop args env n
                  { st with tj := payload, iters := st.iters + 1 }

/-- The `_multiple` loop run from its initial state. -/
def multLoopRun (args : MultArgs) (env : OldEnv) : Except PyErr MultSt :=
  multLoop args env (args.wait_seconds * 2)
    { tj := pydict [], result := emptyJsonResult, is_error := true,
      expect_more := args.expect_more, iters := 0 }

/-- Model of `intercept_json_playwright_multiple` (lines 379-509): a
`PlaywrightTimeoutError` from `goto` is swallowed (`pass`), any other
`goto` exception returns the `PlaywrightGotoError` dict, then the loop and
the `json_parse_result` epilogue run. -/
def intercept_json_playwright_multiple (args : MultArgs) (env : OldEnv) :
    Except PyErr PyVal :=
  match env.goto with
  | GotoOut.otherErr m =>
      Except.ok (pydict [("error", pystr "PlaywrightGotoError"),
                         ("error_message", pystr m), ("data", pydict [])])
  | _ =>
      match multLoopRun args env with
      | Except.error e => Except.error e
      | Except.ok stF =>
          match args.json_parse_result with
          | some g =>
              if stF.is_error then Except.ok stF.result
              else Except.ok (g stF.result)
          | Option.none => Except.ok stF.result

/-- The per-event well-formedness used as an environment hypothesis where a
claim needs the poll loop to run without listener exceptions: the decoded
response body is a dict (or decoding failed, which the handler turns into a
dict itself). -/
def evOk (ev : Event) : Bool :=
  match ev.respJson with
  | Except.error _ => true
  | Except.ok (pydict _) => true
  | Except.ok _ => false

/-- All event batches of an environment are well-formed. -/
def eventsOk (events : List (List Event)) : Bool :=
  events.all (fun l => l.all evOk)

/-- The invariant maintained by the closure variable `target_json` between
reads: it is a dict whose `"data"` slot, if present, holds a dict. -/
def tjOk : PyVal → Bool
  | pydict fs =>
      match alookup fs "data" with
      | some v => v.isDict
      | Option.none => true
  | _ => false

/-- The four defaults inserted by the `with_page` wrapper
(browser_surf.py lines 291-296), in insertion order. -/
def withPageDefaults : List (String × PyVal) :=
  [("accept_downloads", pybool true), ("headless", pybool true),
   ("block_resources", pybool true), ("proxy_info", pynone)]

/-- The `for k, v in default.items(): if k not in kwargs: kwargs[k] = v`
pass of the `with_page` wrapper (lines 297-299). -/
def kwInsertDefaults (kw : List (String × PyVal)) : List (String × PyVal) :=
  withPageDefaults.foldl
    (fun acc kv => if (alookup acc kv.1).isSome then acc
                   else assocSet acc kv.1 kv.2)
    kw

/-- The `kwargs.update(func_kwargs)` pass (line 302). -/
def kwUpdate (kw funcKwargs : List (String × PyVal)) :
    List (String × PyVal) :=
  funcKwargs.foldl (fun acc kv => assocSet acc kv.1 kv.2) kw

/-- Model of one invocation of a `with_page`-decorated function
(browser_surf.py lines 288-321).  `kw` is the current contents of the
dictionary captured by the decorator (mutated in place by every call),
`funcKwargs` the keyword arguments of this call.  Returns the kwargs
dictionary used to open the browser/context/page for this call, and the
state of the captured dictionary after the call. -/
def with_page_call (kw funcKwargs : List (String × PyVal)) :
    List (String × PyVal) × List (String × PyVal) :=
  let k2 := kwUpdate (kwInsertDefaults kw) funcKwargs
  (k2, k2)

/-- The value a sequence of Python keyword arguments leaves behind for a
key: the last binding wins. -/
def lastVal : List (String × PyVal) → String → Option PyVal
  | [], _ => Option.none
  | kv :: rest, k =>
      match lastVal rest k with
      | some w => some w
      | Option.none => if kv.1 = k then some kv.2 else Option.none

/-- The `marker` cell captured by a `check_for_loaded_marker` decorator:
a CSS-selector string, an already-built `Locator`, or `None`. -/
inductive MarkerV where
  | mstr (s : String) : MarkerV
  | mloc (sel : String) : MarkerV
  | mnone : MarkerV

/-- Observable page actions performed by one invocation of a
`check_for_loaded_marker`-decorated function. -/
inductive PageAct where
  | runFunc : PageAct
  | waitMarker (sel : String) (tmo : Nat) : PageAct

/-- The test `marker.startswith(".")`. -/
def startsWithDot (s : String) : Bool :=
  match s.data with
  | c :: _ => c == '.'
  | [] => false

/-- Selector normalisation of lines 472-474: outside strict mode a missing
leading dot is added. -/
def dotSel (markerStrict : Bool) (s : String) : String :=
  if !markerStrict && !(startsWithDot s) then "." ++ s else s

/-- Environment of one invocation of a `check_for_loaded_marker` wrapper:
the wrapped function's output (abstracted to a number) and whether the
marker becomes visible within the timeout. -/
structure CflmEnv where
  funcOut : Nat
  markerVisible : Bool

/-- Model of one invocation of a `check_for_loaded_marker`-decorated
function (browser_surf.py lines 461-489).  Input: the current value of the
captured nonlocal `marker` cell.  Output: the trace of page actions in
order, the new value of the `marker` cell, and the wrapped function's
output or the propagated `wait_for` timeout error. -/
def check_for_loaded_marker_call (markerStrict : Bool) (tmo : Nat)
    (marker : MarkerV) (env : CflmEnv) :
    List PageAct × MarkerV × Except PyErr Nat :=
  match marker with
  | MarkerV.mstr s =>
      let sel := dotSel markerStrict s
      if env.markerVisible then
        ([PageAct.runFunc, PageAct.waitMarker sel tmo], MarkerV.mloc sel,
         Except.ok env.funcOut)
      else
        ([PageAct.runFunc, PageAct.waitMarker sel tmo], MarkerV.mloc sel,
         Except.error PyErr.timeoutError)
  | m => ([PageAct.runFunc], m, Except.ok env.funcOut)

/-- A Python exception instance as `catch_TimeoutError` observes it:
`args` is what `str(e)` shows, `msgAttr` the value of the `message`
attribute (`Option.none` when the instance has no such attribute). -/
structure PyExcInst where
  args : String
  msgAttr : Option String

/-- A Python exception class as `catch_TimeoutError` uses it: how
`exception_class(message)` builds an instance. -/
structure PyExcClass where
  init : String → PyExcInst

/-- The built-in `Exception` class: `Exception(m)` stores `m` in `args`
and has no `message` attribute. -/
def pyBaseException : PyExcClass :=
  { init := fun a => { args := a, msgAttr := Option.none } }

/-- An exception class whose constructor stores its first argument in the
`message` attribute. -/
def msgStoringException : PyExcClass :=
  { init := fun a => { args := a, msgAttr := some a } }

/-- Outcome of a call through the `catch_TimeoutError` wrapper. -/
inductive CatchOutcome (α : Type) where
  | ok (a : α) : CatchOutcome α
  | raisedInst (inst : PyExcInst) : CatchOutcome α
  | attrError : CatchOutcome α

/-- Model of `catch_TimeoutError` (utils/exceptions.py lines 4-46) applied
to a function whose body either returns a value or raises the library's
`TimeoutError` with message `te`.  The wrapper builds
`exception_class(message)`, reads `exception.message` (an `AttributeError`
when the attribute is missing), overwrites it with
`"[<fname>] <exception.message>:\n<str(te)>"` and raises the instance. -/
def catch_TimeoutError {α : Type} (exception_class : PyExcClass)
    (message : String) (fname : String) (f : Except String α) :
    CatchOutcome α :=
  match f with
  | Except.ok a => CatchOutcome.ok a
  | Except.error te =>
      let exc := exception_class.init message
      match exc.msgAttr with
      | Option.none => CatchOutcome.attrError
      | some m =>
          CatchOutcome.raisedInst
            { args := exc.args,
              msgAttr := some ("[" ++ fname ++ "] " ++ m ++ ":\n" ++ te) }

/-- The `error` slot of a returned result dict. -/
def errorField : PyVal → Option PyVal
  | pydict fs => alookup fs "error"
  | _ => Option.none

/-- The `data` slot of a returned result dict. -/
def dataField : PyVal → Option PyVal
  | pydict fs => alookup fs "data"
  | _ => Option.none

/-- A value is `None` or a string. -/
def strOrNone (v : PyVal) : Prop :=
  v = pynone ∨ ∃ s, v = pystr s

/-- The documented result-dictionary shape
`{error: string|null, error_message: string|null, data: mapping}`. -/
def isResultShape (v : PyVal) : Prop :=
  ∃ e m d, v = pydict [("error", e), ("error_message", m), ("data", d)] ∧
    strOrNone e ∧ strOrNone m ∧ d.isDict = true

/-- No user callbacks supplied to `intercept_json_playwright`. -/
def noCallbacks (args : IJPArgs) : Prop :=
  args.json_detect_error = Option.none ∧
  args.json_parse_result = Option.none ∧
  args.captcha_solver_callable = false

/-- The state returned by a successful `ijpRun`, with a fallback for the
error case; lets concrete instantiations name the final loop state without
spelling it out. -/
def ijpOkState (args : IJPArgs) (env : IJPEnv) (dflt : LoopSt) : LoopSt :=
  match ijpRun args env with
  | Except.ok st => st
  | Except.error _ => dflt

/-- The generic goto-failure result dict of the `_old` / `_multiple`
variants. -/
def gotoErrDict (tag msg : String) : PyVal :=
  pydict [("error", pystr tag), ("error_message", pystr msg),
          ("data", pydict [])]

/-- The three forms the loop locals `result` / `is_error` of
`intercept_json_playwright` can take in a callback-free run: still unbound,
the empty-json error, or the success dict around a non-empty intercepted
payload. -/
def ResForm (st : LoopSt) : Prop :=
  (st.result = Option.none ∧ st.is_error = Option.none) ∨
  (st.result = some emptyJsonResult ∧ st.is_error = some false) ∨
  (∃ p, p.isDict = true ∧ p.truthy = true ∧
    st.result = some (mkResult p) ∧ st.is_error = some false)

/-- The two values a callback-free interception run can return: the
empty-json error dict or the success dict around a non-empty payload. -/
def resultOk (v : PyVal) : Prop :=
  v = emptyJsonResult ∨
  ∃ p, p.isDict = true ∧ p.truthy = true ∧ v = mkResult p

/-- A concrete response event whose body decodes to the dict
`{"k": 1}`. -/
def goodEvent : Event :=
  { url := "http://x/api", respJson := Except.ok (pydict [("k", pyint 1)]) }

/-- A concrete response event whose body fails to decode. -/
def badJsonEvent : Event :=
  { url := "http://x/api", respJson := Except.error "Expecting value" }

/-- Callback-free arguments for `intercept_json_playwright` with the
default budgets. -/
def cArgsI : IJPArgs :=
  { page_url := "http://x/page", json_url_subpart := "api",
    json_detect_error := Option.none, json_parse_result := Option.none,
    captcha_solver_callable := false, max_refresh := 1, timeout := 4000 }

/-- Environment with an instantaneous `goto` delivering one good matching
response. -/
def cEnvGood : IJPEnv :=
  { gotoDur := 0, events := [[goodEvent]], solver := [], work := [],
    extra := [] }

/-- Environment with an instantaneous `goto` delivering one matching
response whose body fails to decode. -/
def cEnvBadJson : IJPEnv :=
  { gotoDur := 0, events := [[badJsonEvent]], solver := [], work := [],
    extra := [] }

/-- Environment in which no matching response ever arrives. -/
def cEnvQuiet : IJPEnv :=
  { gotoDur := 0, events := [], solver := [], work := [], extra := [] }

/-- Arguments whose error-detection callback always reports an error with
an `error` tag different from `CaptchaRaisedError`. -/
def cArgsDetectErr : IJPArgs :=
  { cArgsI with
    max_refresh := 5,
    timeout := 10000,
    json_detect_error :=
      some (fun _ => (true, pydict [("error", pystr "UnknownError")])) }

/-- Callback-free arguments for `intercept_json_playwright_old`. -/
def cArgsOld : OldArgs :=
  { page_url := "http://x/page", json_url_subpart := "api",
    json_detect_error := Option.none, json_parse_result := Option.none,
    wait_seconds := 4 }

/-- `_old` / `_multiple` environment: successful `goto`, one good matching
response. -/
def cEnvOldGood : OldEnv :=
  { goto := GotoOut.gok, events := [[goodEvent]] }

/-- `_old` / `_multiple` environment: successful `goto`, one matching
response whose body fails to decode. -/
def cEnvOldBadJson : OldEnv :=
  { goto := GotoOut.gok, events := [[badJsonEvent]] }

/-- Callback-free arguments for `intercept_json_playwright_multiple` with
the default `expect_more = 0`. -/
def cArgsMult : MultArgs :=
  { page_url := "http://x/page", json_url_subpart := "api",
    json_detect_error := Option.none, json_parse_result := Option.none,
    wait_seconds := 4, expect_more := 0 }

/-- The state returned by a successful `oldLoopRun`, with a fallback for
the error case. -/
def oldOkState (args : OldArgs) (env : OldEnv) (dflt : OldSt) : OldSt :=
  match oldLoopRun args env with
  | Except.ok st => st
  | Except.error _ => dflt

/-- The state returned by a successful `multLoopRun`, with a fallback for
the error case. -/
def multOkState (args : MultArgs) (env : OldEnv) (dflt : MultSt) : MultSt :=
  match multLoopRun args env with
  | Except.ok st => st
  | Except.error _ => dflt

theorem alookup_assocSet_self (fs : List (String × PyVal)) (k : String)
    (v : PyVal) : alookup (assocSet fs k v) k = some v := by
  induction fs with
  | nil => simp [assocSet, alookup]
  | cons kv rest ih =>
      obtain ⟨k', v'⟩ := kv
      by_cases h : k' = k
      · simp [assocSet, h, alookup]
      · simp [assocSet, h, alookup, ih]

theorem alookup_assocSet_ne (fs : List (String × PyVal)) (k k' : String)
    (v : PyVal) (h : k' ≠ k) :
    alookup (assocSet fs k v) k' = alookup fs k' := by
  induction fs with
  | nil => simp [assocSet, alookup, Ne.symm h]
  | cons kv rest ih =>
      obtain ⟨k0, v0⟩ := kv
      by_cases h0 : k0 = k
      · subst h0
        simp [assocSet, alookup, Ne.symm h]
      · simp [assocSet, h0, alookup, ih]

theorem dict_falsy_eq_nil (p : PyVal) (hd : p.isDict = true)
    (ht : p.truthy = false) : p = pydict [] := by
  cases p with
  | pydict fs => cases fs with
    | nil => rfl
    | cons kv rest => simp [PyVal.truthy] at ht
  | pynone => simp [PyVal.isDict] at hd
  | pybool b => simp [PyVal.isDict] at hd
  | pyint n => simp [PyVal.isDict] at hd
  | pystr s => simp [PyVal.isDict] at hd
  | pylist es => simp [PyVal.isDict] at hd

theorem tjOk_fields (tj : PyVal) (h : tjOk tj = true) :
    ∃ fs, tj = pydict fs := by
  cases tj <;> simp_all [tjOk]

theorem tjOk_setData (fs : List (String × PyVal)) (v : PyVal)
    (hv : v.isDict = true) :
    tjOk (pydict (assocSet fs "data" v)) = true := by
  simp [tjOk, alookup_assocSet_self, hv]

theorem interceptMsg_ne_empty (m : String) :
    ("exception when trying to intercept:" ++ m) ≠ "" := by
  intro h
  have h2 : ("exception when trying to intercept:" ++ m).length = 0 := by
    rw [h]; rfl
  rw [String.length_append] at h2
  have h3 : "exception when trying to intercept:".length = 35 := rfl
  omega

theorem interceptMsg_truthy (m : String) :
    (pystr ("exception when trying to intercept:" ++ m)).truthy = true := by
  simp [PyVal.truthy, interceptMsg_ne_empty m]

theorem applyEvent_tjOk (sub : String) (tj tj' : PyVal) (ev : Event)
    (htj : tjOk tj = true)
    (h : applyEvent sub tj ev = Except.ok tj') : tjOk tj' = true := by
  obtain ⟨fs, rfl⟩ := tjOk_fields tj htj
  unfold applyEvent at h
  by_cases hm : strIn sub ev.url
  · simp only [hm, if_true] at h
    cases hj : ev.respJson with
    | error m =>
        simp only [bufferOf, hj, truthyOpt, alookup, if_pos rfl,
          interceptMsg_truthy, if_true, setItem, Except.ok.injEq] at h
        subst h
        exact tjOk_setData _ _ rfl
    | ok v =>
        cases v with
        | pydict gs =>
            simp only [bufferOf, hj] at h
            by_cases he : truthyOpt (alookup gs "error")
            · simp only [he, if_true, setItem, Except.ok.injEq] at h
              subst h
              exact tjOk_setData _ _ rfl
            · simp only [he, if_false, Bool.false_eq_true, setItem,
                Except.ok.injEq] at h
              subst h
              exact tjOk_setData _ _ rfl
        | pynone => simp [bufferOf, hj] at h
        | pybool b => simp [bufferOf, hj] at h
        | pyint n => simp [bufferOf, hj] at h
        | pystr s => simp [bufferOf, hj] at h
        | pylist es => simp [bufferOf, hj] at h
  · simp only [hm, if_false] at h
    cases h
    exact htj

theorem applyEvents_tjOk (sub : String) (evs : List Event) :
    ∀ tj tj', tjOk tj = true →
      applyEvents sub tj evs = Except.ok tj' → tjOk tj' = true := by
  induction evs with
  | nil =>
      intro tj tj' htj h
      cases h
      exact htj
  | cons ev rest ih =>
      intro tj tj' htj h
      unfold applyEvents at h
      cases h1 : applyEvent sub tj ev with
      | ok tj1 =>
          rw [h1] at h
          exact ih tj1 tj' (applyEvent_tjOk sub tj tj1 ev htj h1) h
      | error e => rw [h1] at h; cases h

theorem applyEvent_ok_of_evOk (sub : String) (tj : PyVal) (ev : Event)
    (htj : tjOk tj = true) (hev : evOk ev = true) :
    ∃ tj', applyEvent sub tj ev = Except.ok tj' := by
  obtain ⟨fs, rfl⟩ := tjOk_fields tj htj
  cases hres : applyEvent sub (pydict fs) ev with
  | ok t => exact ⟨t, rfl⟩
  | error e =>
      exfalso
      by_cases hm : strIn sub ev.url
      · cases hj : ev.respJson with
        | error m =>
            simp only [applyEvent, hm, if_true, bufferOf, hj, truthyOpt,
              alookup, if_pos rfl, interceptMsg_truthy, setItem] at hres
            exact Except.noConfusion hres
        | ok v =>
            cases v with
            | pydict gs =>
                by_cases he : truthyOpt (alookup gs "error") <;>
                  simp only [applyEvent, hm, if_true, bufferOf, hj, he,
                    Bool.false_eq_true, if_true, if_false, setItem] at hres <;>
                  exact Except.noConfusion hres
            | pynone => simp [evOk, hj] at hev
            | pybool b => simp [evOk, hj] at hev
            | pyint n => simp [evOk, hj] at hev
            | pystr s => simp [evOk, hj] at hev
            | pylist es => simp [evOk, hj] at hev
      · simp only [applyEvent, hm, if_false, Bool.false_eq_true] at hres
        exact Except.noConfusion hres

theorem applyEvents_ok_of_evOk (sub : String) (evs : List Event) :
    ∀ tj, tjOk tj = true → evs.all evOk = true →
      ∃ tj', applyEvents sub tj evs = Except.ok tj' ∧ tjOk tj' = true := by
  induction evs with
  | nil =>
      intro tj htj _
      exact ⟨tj, rfl, htj⟩
  | cons ev rest ih =>
      intro tj htj hall
      simp only [List.all_cons, Bool.and_eq_true] at hall
      obtain ⟨tj1, h1⟩ := applyEvent_ok_of_evOk sub tj ev htj hall.1
      have htj1 := applyEvent_tjOk sub tj tj1 ev htj h1
      obtain ⟨tj', h2, htj'⟩ := ih tj1 htj1 hall.2
      refine ⟨tj', ?_, htj'⟩
      unfold applyEvents
      rw [h1]
      exact h2

theorem readStep_of_tjOk (tj : PyVal) (htj : tjOk tj = true) :
    ∃ p, readStep tj = Except.ok p ∧ p.isDict = true := by
  obtain ⟨fs, rfl⟩ := tjOk_fields tj htj
  cases hl : alookup fs "data" with
  | none => exact ⟨pydict [], by simp [readStep, hl], rfl⟩
  | some v =>
      refine ⟨v, by simp [readStep, hl], ?_⟩
      simpa [tjOk, hl] using htj

theorem eventsOk_getD (events : List (List Event)) (i : Nat)
    (h : eventsOk events = true) : (events.getD i []).all evOk = true := by
  induction events generalizing i with
  | nil => simp [List.getD]
  | cons l rest ih =>
      simp only [eventsOk, List.all_cons, Bool.and_eq_true] at h
      cases i with
      | zero => simpa using h.1
      | succ n =>
          have := ih (h := h.2) n
          simpa using this

theorem continueTail_noSolve (args : IJPArgs) (env : IJPEnv) (st : LoopSt)
    (h : (st.captcha && args.captcha_solver_callable) = false) :
    ∃ d, 500 ≤ d ∧ continueTail args env st =
      { st with time_spent := st.time_spent + d, iters := st.iters + 1 } := by
  refine ⟨if env.work.getD st.iters 0 < 500 then 500 + env.extra.getD st.iters 0
          else env.work.getD st.iters 0 + env.extra.getD st.iters 0, ?_, ?_⟩
  · split
    · omega
    · next hw => omega
  · unfold continueTail
    simp only [h, Bool.false_eq_true, if_false]

theorem continueTail_time (args : IJPArgs) (env : IJPEnv) (st : LoopSt) :
    st.time_spent + 500 ≤ (continueTail args env st).time_spent ∧
    (continueTail args env st).iters = st.iters + 1 := by
  unfold continueTail
  cases h1 : st.captcha && args.captcha_solver_callable with
  | false =>
      simp only [Bool.false_eq_true, if_false]
      cases h4 : decide (env.work.getD st.iters 0 < 500) with
      | true =>
          have h4' := of_decide_eq_true h4
          simp only [if_pos h4']
          exact ⟨by omega, trivial⟩
      | false =>
          have h4' := of_decide_eq_false h4
          simp only [if_neg h4']
          exact ⟨by omega, trivial⟩
  | true =>
      simp only [if_pos rfl]
      rcases hsv : env.solver.getD st.iters (false, false) with ⟨ask, solved⟩
      simp only [hsv]
      have hgen : ∀ st2 : LoopSt, st2.time_spent = st.time_spent →
          st2.iters = st.iters →
          st.time_spent + 500 ≤
            (st2.time_spent +
              (if env.work.getD st.iters 0 < 500 then
                500 + env.extra.getD st.iters 0
              else env.work.getD st.iters 0 + env.extra.getD st.iters 0)) ∧
          st2.iters + 1 = st.iters + 1 := by
        intro st2 hts hit
        constructor
        · rw [hts]
          split
          · omega
          · next hw => omega
        · rw [hit]
      cases solved with
      | true =>
          cases ask with
          | true => exact hgen _ rfl rfl
          | false => exact hgen _ rfl rfl
      | false =>
          cases ask with
          | true => exact hgen _ rfl rfl
          | false => exact hgen _ rfl rfl

theorem iterRead_isDict (args : IJPArgs) (env : IJPEnv) (st : LoopSt)
    (payload : PyVal) (ht : tjOk st.tj = true)
    (hr : iterRead args env st = Except.ok payload) :
    payload.isDict = true := by
  unfold iterRead at hr
  cases ha : applyEvents args.json_url_subpart st.tj
      (env.events.getD st.iters []) <;> rw [ha] at hr
  case error e => exact Except.noConfusion hr
  case ok tj1 =>
      dsimp only at hr
      have htj1 := applyEvents_tjOk args.json_url_subpart
        (env.events.getD st.iters []) st.tj tj1 ht ha
      obtain ⟨p, hp1, hp2⟩ := readStep_of_tjOk tj1 htj1
      rw [hp1] at hr
      injection hr with hq
      subst hq
      exact hp2

theorem iterBody_inl (args : IJPArgs) (env : IJPEnv) (st : LoopSt)
    (s : LoopSt) (h : iterBody args env st = Except.ok (Sum.inl s)) :
    s.iters = st.iters + 1 ∧ s.time_spent = st.time_spent := by
  unfold iterBody at h
  cases hr : iterRead args env st <;> rw [hr] at h
  case error e => exact Except.noConfusion h
  case ok payload =>
      dsimp only at h
      cases htr : payload.truthy with
      | false =>
          simp only [htr, Bool.false_eq_true, if_false, Except.ok.injEq] at h
          exact Sum.noConfusion h
      | true =>
          simp only [htr, eq_self_iff_true, if_true] at h
          cases hg : pyGet (detectStage args.json_detect_error
              (mkResult payload)).2 "error" <;> rw [hg] at h
          case error e => exact Except.noConfusion h
          case ok ev =>
              dsimp only at h
              cases hc : isCaptchaStr ev with
              | true =>
                  simp only [hc, eq_self_iff_true, if_true,
                    Except.ok.injEq] at h
                  exact Sum.noConfusion h
              | false =>
                  simp only [hc, Bool.false_eq_true, if_false,
                    Except.ok.injEq, Sum.inl.injEq] at h
                  subst h
                  exact ⟨rfl, rfl⟩

theorem iterBody_inr (args : IJPArgs) (env : IJPEnv) (st : LoopSt)
    (s : LoopSt) (h : iterBody args env st = Except.ok (Sum.inr s)) :
    s.iters = st.iters + 1 ∧ st.time_spent + 500 ≤ s.time_spent := by
  unfold iterBody at h
  cases hr : iterRead args env st <;> rw [hr] at h
  case error e => exact Except.noConfusion h
  case ok payload =>
      dsimp only at h
      cases htr : payload.truthy with
      | false =>
          simp only [htr, Bool.false_eq_true, if_false, Except.ok.injEq,
            Sum.inr.injEq] at h
          subst h
          have hct := continueTail_time args env
            { st with
              tj := payload,
              result := some emptyJsonResult,
              is_error := some (detectStage args.json_detect_error
                (mkResult payload)).1 }
          exact ⟨hct.2, hct.1⟩
      | true =>
          simp only [htr, eq_self_iff_true, if_true] at h
          cases hg : pyGet (detectStage args.json_detect_error
              (mkResult payload)).2 "error" <;> rw [hg] at h
          case error e => exact Except.noConfusion h
          case ok ev =>
              dsimp only at h
              cases hc : isCaptchaStr ev with
              | false =>
                  simp only [hc, Bool.false_eq_true, if_false,
                    Except.ok.injEq] at h
                  exact Sum.noConfusion h
              | true =>
                  simp only [hc, eq_self_iff_true, if_true,
                    Except.ok.injEq, Sum.inr.injEq] at h
                  subst h
                  have hct := continueTail_time args env
                    { st with
                      tj := payload,
                      result := some (detectStage args.json_detect_error
                        (mkResult payload)).2,
                      is_error := some (detectStage args.json_detect_error
                        (mkResult payload)).1,
                      captcha := true }
                  exact ⟨hct.2, hct.1⟩

theorem iterBody_noCb (args : IJPArgs) (env : IJPEnv) (st : LoopSt)
    (hd : args.json_detect_error = Option.none)
    (hs : args.captcha_solver_callable = false)
    (ht : tjOk st.tj = true) :
    (∃ e, iterBody args env st = Except.error e) ∨
    (∃ p, p.isDict = true ∧ p.truthy = true ∧
      iterBody args env st = Except.ok (Sum.inl
        { st with
          tj := p,
          result := some (mkResult p),
          is_error := some false,
          iters := st.iters + 1 })) ∨
    (∃ d, 500 ≤ d ∧
      iterBody args env st = Except.ok (Sum.inr
        { st with
          tj := pydict [],
          result := some emptyJsonResult,
          is_error := some false,
          time_spent := st.time_spent + d,
          iters := st.iters + 1 })) := by
  cases hr : iterRead args env st with
  | error e => exact Or.inl ⟨e, by unfold iterBody; rw [hr]⟩
  | ok payload =>
      have hpd : payload.isDict = true := iterRead_isDict args env st payload ht hr
      cases htr : payload.truthy with
      | true =>
          refine Or.inr (Or.inl ⟨payload, hpd, htr, ?_⟩)
          unfold iterBody
          rw [hr]
          dsimp only
          simp [hd, detectStage, htr, mkResult, pyGet, alookup, isCaptchaStr]
      | false =>
          have hpe : payload = pydict [] := dict_falsy_eq_nil payload hpd htr
          subst hpe
          obtain ⟨d, h500, hct⟩ := continueTail_noSolve args env
            { st with
              tj := pydict [],
              result := some emptyJsonResult,
              is_error := some false }
            (by rw [hs]; exact Bool.and_false _)
          refine Or.inr (Or.inr ⟨d, h500, ?_⟩)
          unfold iterBody
          rw [hr]
          dsimp only
          simp only [hd, detectStage, htr, Bool.false_eq_true, if_false]
          rw [hct]

theorem pollLoop_noCb (args : IJPArgs) (env : IJPEnv)
    (hd : args.json_detect_error = Option.none)
    (hs : args.captcha_solver_callable = false) :
    ∀ fuel (st st' : LoopSt), tjOk st.tj = true → ResForm st →
      pollLoop args env fuel st = Except.ok st' → ResForm st' := by
  intro fuel
  induction fuel with
  | zero =>
      intro st st' _ hres h
      injection h with h1
      subst h1
      exact hres
  | succ fuel ih =>
      intro st st' ht hres h
      unfold pollLoop at h
      by_cases hcond : st.time_spent ≤ args.timeout ∧
          st.nb_refresh < args.max_refresh
      · rw [if_pos hcond] at h
        rcases iterBody_noCb args env st hd hs ht with
          ⟨e, he⟩ | ⟨p, hp1, hp2, hb⟩ | ⟨d, h500, hb⟩
        · rw [he] at h
          exact Except.noConfusion h
        · rw [hb] at h
          dsimp only at h
          injection h with h1
          subst h1
          exact Or.inr (Or.inr ⟨p, hp1, hp2, rfl, rfl⟩)
        · rw [hb] at h
          dsimp only at h
          refine ih _ st' ?_ ?_ h
          · rfl
          · exact Or.inr (Or.inl ⟨rfl, rfl⟩)
      · rw [if_neg hcond] at h
        injection h with h1
        subst h1
        exact hres

theorem ijp_ok_noCb (args : IJPArgs) (env : IJPEnv) (v : PyVal)
    (hnc : noCallbacks args)
    (h : intercept_json_playwright args env = Except.ok v) : resultOk v := by
  obtain ⟨hd, hp, hs⟩ := hnc
  unfold intercept_json_playwright at h
  cases hrun : ijpRun args env <;> rw [hrun] at h
  case error e => exact Except.noConfusion h
  case ok st =>
      dsimp only at h
      have hres : ResForm st :=
        pollLoop_noCb args env hd hs (stdFuel args) (initSt env) st rfl
          (Or.inl ⟨rfl, rfl⟩) hrun
      unfold ijpFinalize at h
      rcases hres with ⟨hr1, hr2⟩ | ⟨hr1, hr2⟩ | ⟨p, hp1, hp2, hr1, hr2⟩
      · rw [hr2] at h
        exact Except.noConfusion h
      · rw [hr2] at h
        dsimp only at h
        rw [hr1] at h
        dsimp only at h
        rw [hp] at h
        dsimp only at h
        injection h with h1
        subst h1
        exact Or.inl rfl
      · rw [hr2] at h
        dsimp only at h
        rw [hr1] at h
        dsimp only at h
        rw [hp] at h
        dsimp only at h
        injection h with h1
        subst h1
        exact Or.inr ⟨p, hp1, hp2, rfl⟩

theorem resultOk_shape (v : PyVal) (h : resultOk v) :
    isResultShape v ∧
    (errorField v = some pynone ↔ truthyOpt (dataField v) = true) := by
  rcases h with rfl | ⟨p, hp1, hp2, rfl⟩
  · refine ⟨⟨pystr "PlaywrightInterceptError",
      pystr "An empty json was collected after calling the hidden API.",
      pydict [], rfl, Or.inr ⟨_, rfl⟩, Or.inr ⟨_, rfl⟩, rfl⟩, ?_⟩
    simp [errorField, dataField, emptyJsonResult, alookup, truthyOpt,
      PyVal.truthy]
  · refine ⟨⟨pynone, pynone, p, rfl, Or.inl rfl, Or.inl rfl, hp1⟩, ?_⟩
    simp [errorField, dataField, mkResult, alookup, truthyOpt, hp2]

theorem oldLoop_completes (args : OldArgs) (env : OldEnv)
    (hev : eventsOk env.events = true) :
    ∀ n (st : OldSt), tjOk st.tj = true →
      ∃ st', oldLoop args env n st = Except.ok st' := by
  intro n
  induction n with
  | zero => intro st _; exact ⟨st, rfl⟩
  | succ n ih =>
      intro st ht
      obtain ⟨tj1, ha, htj1⟩ := applyEvents_ok_of_evOk args.json_url_subpart
        (env.events.getD st.iters []) st.tj ht (eventsOk_getD _ _ hev)
      obtain ⟨p, hp1, hp2⟩ := readStep_of_tjOk tj1 htj1
      unfold oldLoop
      rw [ha]
      dsimp only
      rw [hp1]
      dsimp only
      cases htr : p.truthy with
      | true => exact ⟨_, if_pos rfl⟩
      | false =>
          rw [if_neg (by simp)]
          have hpe : p = pydict [] := dict_falsy_eq_nil p hp2 htr
          subst hpe
          exact ih _ rfl

theorem readStep_isDict (tj p : PyVal) (htj : tjOk tj = true)
    (h : readStep tj = Except.ok p) : p.isDict = true := by
  obtain ⟨q, h1, h2⟩ := readStep_of_tjOk tj htj
  rw [h1] at h
  injection h with h3
  subst h3
  exact h2

theorem pollLoop_stop (args : IJPArgs) (env : IJPEnv) (fuel : Nat)
    (st : LoopSt)
    (h : ¬(st.time_spent ≤ args.timeout ∧ st.nb_refresh < args.max_refresh)) :
    pollLoop args env fuel st = Except.ok st := by
  cases fuel with
  | zero => rfl
  | succ n =>
      unfold pollLoop
      rw [if_neg h]

theorem pollLoop_iters (args : IJPArgs) (env : IJPEnv) :
    ∀ fuel (st st' : LoopSt), 500 * st.iters ≤ st.time_spent →
      pollLoop args env fuel st = Except.ok st' →
      st'.iters ≤ max st.iters (args.timeout / 500 + 1) := by
  intro fuel
  induction fuel with
  | zero =>
      intro st st' _ h
      injection h with h1
      subst h1
      exact le_max_left _ _
  | succ fuel ih =>
      intro st st' hinv h
      unfold pollLoop at h
      by_cases hcond : st.time_spent ≤ args.timeout ∧
          st.nb_refresh < args.max_refresh
      · rw [if_pos hcond] at h
        have hit : st.iters ≤ args.timeout / 500 := by
          have h1 := hcond.1
          exact (Nat.le_div_iff_mul_le (by norm_num)).mpr (by omega)
        cases hb : iterBody args env st with
        | error e =>
            rw [hb] at h
            exact Except.noConfusion h
        | ok out =>
            rw [hb] at h
            cases out with
            | inl sB =>
                dsimp only at h
                injection h with h1
                subst h1
                have hstep := iterBody_inl args env st sB hb
                rw [hstep.1]
                exact le_trans (Nat.succ_le_succ hit) (le_max_right _ _)
            | inr sC =>
                dsimp only at h
                have hstep := iterBody_inr args env st sC hb
                have hinv' : 500 * sC.iters ≤ sC.time_spent := by
                  have h1 := hstep.1
                  have h2 := hstep.2
                  omega
                have hrec := ih _ st' hinv' h
                have h2 : sC.iters ≤ args.timeout / 500 + 1 := by
                  have h1 := hstep.1
                  omega
                calc st'.iters ≤ max sC.iters (args.timeout / 500 + 1) := hrec
                  _ ≤ args.timeout / 500 + 1 := max_le h2 le_rfl
                  _ ≤ max st.iters (args.timeout / 500 + 1) := le_max_right _ _
      · rw [if_neg hcond] at h
        injection h with h1
        subst h1
        exact le_max_left _ _

theorem pollLoop_stable (args : IJPArgs) (env : IJPEnv) :
    ∀ fuel (st : LoopSt),
      args.timeout + 1 ≤ st.time_spent + 500 * fuel →
      ∀ k, pollLoop args env (fuel + k) st = pollLoop args env fuel st := by
  intro fuel
  induction fuel with
  | zero =>
      intro st hbig k
      have hstop : ¬(st.time_spent ≤ args.timeout ∧
          st.nb_refresh < args.max_refresh) := by
        intro hx
        have := hx.1
        omega
      rw [Nat.zero_add]
      rw [pollLoop_stop args env k st hstop]
      rfl
  | succ fuel ih =>
      intro st hbig k
      have heq : fuel + 1 + k = (fuel + k) + 1 := by omega
      rw [heq]
      by_cases hcond : st.time_spent ≤ args.timeout ∧
          st.nb_refresh < args.max_refresh
      · unfold pollLoop
        rw [if_pos hcond, if_pos hcond]
        cases hb : iterBody args env st with
        | error e => rfl
        | ok out =>
            cases out with
            | inl sB => rfl
            | inr sC =>
                dsimp only
                have hstep := iterBody_inr args env st sC hb
                refine ih sC ?_ k
                have h2 := hstep.2
                omega
      · rw [pollLoop_stop args env _ st hcond, pollLoop_stop args env _ st hcond]

theorem ijpRun_stable (args : IJPArgs) (env : IJPEnv) (k : Nat) :
    pollLoop args env (stdFuel args + k) (initSt env) = ijpRun args env := by
  unfold ijpRun
  apply pollLoop_stable
  have h := Nat.div_add_mod args.timeout 500
  have h2 : args.timeout % 500 < 500 := Nat.mod_lt _ (by norm_num)
  show args.timeout + 1 ≤ env.gotoDur + 500 * (args.timeout / 500 + 2)
  omega

theorem oldLoop_iters (args : OldArgs) (env : OldEnv) :
    ∀ n (st st' : OldSt), oldLoop args env n st = Except.ok st' →
      st'.iters ≤ st.iters + n := by
  intro n
  induction n with
  | zero =>
      intro st st' h
      injection h with h1
      subst h1
      omega
  | succ n ih =>
      intro st st' h
      unfold oldLoop at h
      cases ha : applyEvents args.json_url_subpart st.tj
          (env.events.getD st.iters []) with
      | error e =>
          rw [ha] at h
          exact Except.noConfusion h
      | ok tj1 =>
          rw [ha] at h
          dsimp only at h
          cases hrs : readStep tj1 with
          | error e =>
              rw [hrs] at h
              exact Except.noConfusion h
          | ok p =>
              rw [hrs] at h
              dsimp only at h
              cases htr : p.truthy with
              | true =>
                  rw [htr] at h
                  rw [if_pos rfl] at h
                  injection h with h1
                  subst h1
                  show st.iters + 1 ≤ st.iters + (n + 1)
                  omega
              | false =>
                  rw [htr] at h
                  rw [if_neg (by simp)] at h
                  have h2 : st'.iters ≤ st.iters + 1 + n := ih _ st' h
                  omega

theorem multLoop_iters (args : MultArgs) (env : OldEnv) :
    ∀ n (st st' : MultSt), multLoop args env n st = Except.ok st' →
      st'.iters ≤ st.iters + n := by
  intro n
  induction n with
  | zero =>
      intro st st' h
      injection h with h1
      subst h1
      omega
  | succ n ih =>
      intro st st' h
      unfold multLoop at h
      cases ha : applyEvents args.json_url_subpart st.tj
          (env.events.getD st.iters []) with
      | error e =>
          rw [ha] at h
          exact Except.noConfusion h
      | ok tj1 =>
          rw [ha] at h
          dsimp only at h
          cases hrs : readStep tj1 with
          | error e =>
              rw [hrs] at h
              exact Except.noConfusion h
          | ok p =>
              rw [hrs] at h
              dsimp only at h
              cases htr : p.truthy with
              | true =>
                  rw [htr] at h
                  rw [if_pos rfl] at h
                  by_cases hbr : (match args.json_detect_error with
                      | some f => f (mkResult p)
                      | Option.none => (st.is_error, mkResult p)).1 = false ∨
                      st.expect_more = 0
                  · rw [if_pos hbr] at h
                    injection h with h1
                    subst h1
                    show st.iters + 1 ≤ st.iters + (n + 1)
                    omega
                  · rw [if_neg hbr] at h
                    have h2 : st'.iters ≤ st.iters + 1 + n := ih _ st' h
                    omega
              | false =>
                  rw [htr] at h
                  rw [if_neg (by simp)] at h
                  have h2 : st'.iters ≤ st.iters + 1 + n := ih _ st' h
                  omega

theorem multLoop_noCb (args : MultArgs) (env : OldEnv)
    (hd : args.json_detect_error = Option.none) :
    ∀ n (st st' : MultSt), tjOk st.tj = true → st.is_error = true →
      st.expect_more = 0 → resultOk st.result →
      multLoop args env n st = Except.ok st' →
      st'.is_error = true ∧ resultOk st'.result := by
  intro n
  induction n with
  | zero =>
      intro st st' _ his _ hres h
      injection h with h1
      subst h1
      exact ⟨his, hres⟩
  | succ n ih =>
      intro st st' ht his hexp hres h
      unfold multLoop at h
      cases ha : applyEvents args.json_url_subpart st.tj
          (env.events.getD st.iters []) with
      | error e =>
          rw [ha] at h
          exact Except.noConfusion h
      | ok tj1 =>
          rw [ha] at h
          dsimp only at h
          have htj1 := applyEvents_tjOk args.json_url_subpart
            (env.events.getD st.iters []) st.tj tj1 ht ha
          cases hrs : readStep tj1 with
          | error e =>
              rw [hrs] at h
              exact Except.noConfusion h
          | ok p =>
              rw [hrs] at h
              dsimp only at h
              have hpd := readStep_isDict tj1 p htj1 hrs
              cases htr : p.truthy with
              | true =>
                  rw [htr] at h
                  rw [if_pos rfl] at h
                  rw [hd] at h
                  dsimp only at h
                  rw [if_pos (Or.inr hexp)] at h
                  injection h with h1
                  subst h1
                  exact ⟨his, Or.inr ⟨p, hpd, htr, rfl⟩⟩
              | false =>
                  rw [htr] at h
                  rw [if_neg (by simp)] at h
                  have hpe : p = pydict [] := dict_falsy_eq_nil p hpd htr
                  subst hpe
                  refine ih _ st' ?_ ?_ ?_ ?_ h
                  · rfl
                  · exact his
                  · exact hexp
                  · exact hres

theorem old_goto_timeout (args : OldArgs) (env : OldEnv) (m : String)
    (hg : env.goto = GotoOut.timeoutErr m) :
    intercept_json_playwright_old args env =
      Except.ok (gotoErrDict "PlaywrightTimeoutError" m) := by
  unfold intercept_json_playwright_old
  rw [hg]
  rfl

theorem old_goto_other (args : OldArgs) (env : OldEnv) (m : String)
    (hg : env.goto = GotoOut.otherErr m) :
    intercept_json_playwright_old args env =
      Except.ok (gotoErrDict "PlaywrightGotoError" m) := by
  unfold intercept_json_playwright_old
  rw [hg]
  rfl

theorem mult_goto_other (args : MultArgs) (env : OldEnv) (m : String)
    (hg : env.goto = GotoOut.otherErr m) :
    intercept_json_playwright_multiple args env =
      Except.ok (gotoErrDict "PlaywrightGotoError" m) := by
  unfold intercept_json_playwright_multiple
  rw [hg]
  rfl

theorem old_unbound (args : OldArgs) (env : OldEnv)
    (hd : args.json_detect_error = Option.none)
    (hg : env.goto = GotoOut.gok) (hev : eventsOk env.events = true) :
    intercept_json_playwright_old args env =
      Except.error PyErr.unboundLocal := by
  obtain ⟨stF, hF⟩ := oldLoop_completes args env hev (args.wait_seconds * 2)
    { tj := pydict [], result := Option.none, iters := 0 } rfl
  have hF' : oldLoopRun args env = Except.ok stF := hF
  unfold intercept_json_playwright_old
  rw [hg]
  dsimp only
  rw [hF']
  dsimp only
  rw [hd]

theorem ijp_unbound (args : IJPArgs) (env : IJPEnv)
    (hcond : args.max_refresh = 0 ∨ args.timeout < env.gotoDur) :
    intercept_json_playwright args env = Except.error PyErr.unboundLocal := by
  have hstop : ¬((initSt env).time_spent ≤ args.timeout ∧
      (initSt env).nb_refresh < args.max_refresh) := by
    dsimp [initSt]
    rcases hcond with h | h <;> omega
  have hrun : ijpRun args env = Except.ok (initSt env) :=
    pollLoop_stop args env _ _ hstop
  unfold intercept_json_playwright
  rw [hrun]
  rfl

theorem old_ok_noDetect (args : OldArgs) (env : OldEnv) (v : PyVal)
    (hd : args.json_detect_error = Option.none)
    (h : intercept_json_playwright_old args env = Except.ok v) :
    (∃ m, env.goto = GotoOut.timeoutErr m ∧
      v = gotoErrDict "PlaywrightTimeoutError" m) ∨
    (∃ m, env.goto = GotoOut.otherErr m ∧
      v = gotoErrDict "PlaywrightGotoError" m) := by
  unfold intercept_json_playwright_old at h
  cases hg : env.goto with
  | gok =>
      rw [hg] at h
      dsimp only at h
      cases hrun : oldLoopRun args env with
      | error e =>
          rw [hrun] at h
          exact Except.noConfusion h
      | ok stF =>
          rw [hrun] at h
          dsimp only at h
          rw [hd] at h
          exact Except.noConfusion h
  | timeoutErr m =>
      rw [hg] at h
      dsimp only at h
      injection h with h1
      exact Or.inl ⟨m, rfl, h1.symm⟩
  | otherErr m =>
      rw [hg] at h
      dsimp only at h
      injection h with h1
      exact Or.inr ⟨m, rfl, h1.symm⟩

theorem mult_ok_noCb (args : MultArgs) (env : OldEnv) (v : PyVal)
    (hd : args.json_detect_error = Option.none)
    (hexp : args.expect_more = 0)
    (h : intercept_json_playwright_multiple args env = Except.ok v) :
    (∃ m, env.goto = GotoOut.otherErr m ∧
      v = gotoErrDict "PlaywrightGotoError" m) ∨ resultOk v := by
  unfold intercept_json_playwright_multiple at h
  have hbody : ∀ (hh : (match multLoopRun args env with
      | Except.error e => Except.error e
      | Except.ok stF =>
          match args.json_parse_result with
          | some g =>
              if stF.is_error then Except.ok stF.result
              else Except.ok (g stF.result)
          | Option.none => Except.ok stF.result) = Except.ok v),
      resultOk v := by
    intro hh
    cases hrun : multLoopRun args env with
    | error e =>
        rw [hrun] at hh
        exact Except.noConfusion hh
    | ok stF =>
        rw [hrun] at hh
        dsimp only at hh
        have hrun' : multLoop args env (args.wait_seconds * 2)
            { tj := pydict [], result := emptyJsonResult, is_error := true,
              expect_more := args.expect_more, iters := 0 } =
            Except.ok stF := hrun
        obtain ⟨his, hres⟩ := multLoop_noCb args env hd
          (args.wait_seconds * 2)
          { tj := pydict [], result := emptyJsonResult, is_error := true,
            expect_more := args.expect_more, iters := 0 }
          stF rfl rfl hexp (Or.inl rfl) hrun'
        cases hpp : args.json_parse_result with
        | none =>
            rw [hpp] at hh
            dsimp only at hh
            injection hh with h1
            subst h1
            exact hres
        | some g =>
            rw [hpp] at hh
            dsimp only at hh
            rw [his] at hh
            rw [if_pos rfl] at hh
            injection hh with h1
            subst h1
            exact hres
  cases hg : env.goto with
  | otherErr m =>
      rw [hg] at h
      dsimp only at h
      injection h with h1
      exact Or.inl ⟨m, rfl, h1.symm⟩
  | gok =>
      rw [hg] at h
      dsimp only at h
      exact Or.inr (hbody h)
  | timeoutErr m =>
      rw [hg] at h
      dsimp only at h
      exact Or.inr (hbody h)

theorem kwUpdate_lastVal (k : String) :
    ∀ (fk acc : List (String × PyVal)),
      alookup (kwUpdate acc fk) k =
        match lastVal fk k with
        | some v => some v
        | Option.none => alookup acc k := by
  intro fk
  induction fk with
  | nil => intro acc; rfl
  | cons kv rest ih =>
      intro acc
      rw [show kwUpdate acc (kv :: rest) =
        kwUpdate (assocSet acc kv.1 kv.2) rest from rfl]
      rw [ih]
      cases hl : lastVal rest k with
      | some w => simp [lastVal, hl]
      | none =>
          simp only [lastVal, hl]
          by_cases hk : kv.1 = k
          · rw [hk]
            rw [alookup_assocSet_self]
            rw [if_pos rfl]
          · rw [if_neg hk]
            exact alookup_assocSet_ne acc kv.1 k kv.2 (fun hh => hk hh.symm)

theorem foldl_defaults_pres (k : String) (v : PyVal) :
    ∀ (ds acc : List (String × PyVal)), alookup acc k = some v →
      alookup (List.foldl
        (fun acc kv => if (alookup acc kv.1).isSome then acc
                       else assocSet acc kv.1 kv.2) acc ds) k = some v := by
  intro ds
  induction ds with
  | nil => intro acc h; exact h
  | cons d rest ih =>
      intro acc h
      rw [List.foldl_cons]
      apply ih
      by_cases hp : (alookup acc d.1).isSome
      · rw [if_pos hp]
        exact h
      · rw [if_neg hp]
        by_cases hk : d.1 = k
        · exfalso
          rw [hk, h] at hp
          exact hp (by simp)
        · rw [alookup_assocSet_ne acc d.1 k d.2 (fun hh => hk hh.symm)]
          exact h

theorem gotoErrDict_shape (tag m : String) :
    isResultShape (gotoErrDict tag m) ∧
    (errorField (gotoErrDict tag m) = some pynone ↔
      truthyOpt (dataField (gotoErrDict tag m)) = true) := by
  refine ⟨⟨pystr tag, pystr m, pydict [], rfl, Or.inr ⟨_, rfl⟩,
    Or.inr ⟨_, rfl⟩, rfl⟩, ?_⟩
  simp [errorField, dataField, gotoErrDict, alookup, truthyOpt,
    PyVal.truthy]

/-- Claim C1 (amended): whenever an interception function returns a result
dictionary (rather than raising `UnboundLocalError`, see C8) and no user
callbacks are supplied (for `_multiple` additionally with its default
`expect_more = 0`), the returned dictionary has the documented shape
`{error: string|null, error_message: string|null, data: mapping}`, and
`error = None` holds exactly when `data` carries a non-empty intercepted
payload (i.e. exactly when the interception succeeded). -/
theorem claim1_amended :
    (∀ (args : IJPArgs) (env : IJPEnv) (v : PyVal), noCallbacks args →
      intercept_json_playwright args env = Except.ok v →
      isResultShape v ∧
        (errorField v = some pynone ↔ truthyOpt (dataField v) = true)) ∧
    (∀ (args : OldArgs) (env : OldEnv) (v : PyVal),
      args.json_detect_error = Option.none →
      intercept_json_playwright_old args env = Except.ok v →
      isResultShape v ∧
        (errorField v = some pynone ↔ truthyOpt (dataField v) = true)) ∧
    (∀ (args : MultArgs) (env : OldEnv) (v : PyVal),
      args.json_detect_error = Option.none → args.expect_more = 0 →
      intercept_json_playwright_multiple args env = Except.ok v →
      isResultShape v ∧
        (errorField v = some pynone ↔ truthyOpt (dataField v) = true)) ∧
    (∀ (url : String) (env : IJPEnv) (v : PyVal),
      request_json_playwright url Option.none Option.none env = Except.ok v →
      isResultShape v ∧
        (errorField v = some pynone ↔ truthyOpt (dataField v) = true)) := by
  refine ⟨?_, ?_, ?_, ?_⟩
  · intro args env v hnc h
    exact resultOk_shape v (ijp_ok_noCb args env v hnc h)
  · intro args env v hd h
    rcases old_ok_noDetect args env v hd h with ⟨m, _, rfl⟩ | ⟨m, _, rfl⟩
    · exact gotoErrDict_shape _ _
    · exact gotoErrDict_shape _ _
  · intro args env v hd hexp h
    rcases mult_ok_noCb args env v hd hexp h with ⟨m, _, rfl⟩ | hres
    · exact gotoErrDict_shape _ _
    · exact resultOk_shape v hres
  · intro url env v h
    exact resultOk_shape v (ijp_ok_noCb _ env v ⟨rfl, rfl, rfl⟩ h)

/-- Claim C1 counterexample: the claim as stated ("returns, for every
input, a result dictionary") is false.  On a concrete input with a
successful navigation, one intercepted payload and no callbacks,
`intercept_json_playwright_old` raises `UnboundLocalError` instead of
returning a dictionary. -/
theorem claim1_counterexample :
    intercept_json_playwright_old cArgsOld cEnvOldGood =
      Except.error PyErr.unboundLocal := rfl

/-- Claim C1 witness: the amended claim applied to a concrete callback-free
run that intercepts the payload `{"k": 1}`. -/
theorem claim1_witness :
    isResultShape (pydict [("error", pynone), ("error_message", pynone),
      ("data", pydict [("k", pyint 1)])]) ∧
    (errorField (pydict [("error", pynone), ("error_message", pynone),
      ("data", pydict [("k", pyint 1)])]) = some pynone ↔
      truthyOpt (dataField (pydict [("error", pynone),
        ("error_message", pynone),
        ("data", pydict [("k", pyint 1)])])) = true) :=
  claim1_amended.1 cArgsI cEnvGood _ ⟨rfl, rfl, rfl⟩ rfl

/-- Claim C2 (amended): on the paths that return, failures are reported as
tagged strings: a navigation timeout in `_old` returns
`error = "PlaywrightTimeoutError"`, another navigation error in `_old` /
`_multiple` returns `error = "PlaywrightGotoError"`, and a callback-free
`intercept_json_playwright` run that returns yields `error = None` or
`error = "PlaywrightInterceptError"`.  However, a JSON decode failure does
not surface in the `error` field: the intercepted decode-error dict is
nested under `data` with `error = None` at top level (last conjunct), and
exceptions can propagate to the caller (see the counterexample and C8). -/
theorem claim2_amended :
    (∀ (args : OldArgs) (env : OldEnv) (m : String),
      env.goto = GotoOut.timeoutErr m →
      intercept_json_playwright_old args env =
        Except.ok (gotoErrDict "PlaywrightTimeoutError" m)) ∧
    (∀ (args : OldArgs) (env : OldEnv) (m : String),
      env.goto = GotoOut.otherErr m →
      intercept_json_playwright_old args env =
        Except.ok (gotoErrDict "PlaywrightGotoError" m)) ∧
    (∀ (args : MultArgs) (env : OldEnv) (m : String),
      env.goto = GotoOut.otherErr m →
      intercept_json_playwright_multiple args env =
        Except.ok (gotoErrDict "PlaywrightGotoError" m)) ∧
    (∀ (args : IJPArgs) (env : IJPEnv) (v : PyVal), noCallbacks args →
      intercept_json_playwright args env = Except.ok v →
      errorField v = some pynone ∨
        errorField v = some (pystr "PlaywrightInterceptError")) ∧
    (intercept_json_playwright cArgsI cEnvBadJson = Except.ok
      (pydict [("error", pynone), ("error_message", pynone),
        ("data", pydict [("error", pystr "PlaywrightInterceptError"),
          ("error_message",
           pystr "exception when trying to intercept:Expecting value"),
          ("data", pydict [])])])) := by
  refine ⟨?_, ?_, ?_, ?_, rfl⟩
  · intro args env m hg
    exact old_goto_timeout args env m hg
  · intro args env m hg
    exact old_goto_other args env m hg
  · intro args env m hg
    exact mult_goto_other args env m hg
  · intro args env v hnc h
    rcases ijp_ok_noCb args env v hnc h with rfl | ⟨p, hp1, hp2, rfl⟩
    · right
      rfl
    · left
      rfl

/-- Claim C2 counterexample: the claim as stated is false on two counts at
one concrete input: with a successful navigation, a matching response whose
body fails to decode, and no callbacks, `intercept_json_playwright_old`
propagates an `UnboundLocalError` to the caller instead of returning a
result dictionary whose `error` field carries one of the tagged strings. -/
theorem claim2_counterexample :
    intercept_json_playwright_old cArgsOld cEnvOldBadJson =
      Except.error PyErr.unboundLocal := rfl

/-- Claim C2 witness: the amended claim applied to a concrete navigation
timeout of `_old` and to a concrete returning callback-free run of
`intercept_json_playwright`. -/
theorem claim2_witness :
    (intercept_json_playwright_old cArgsOld
        ⟨GotoOut.timeoutErr "Timeout 30000ms exceeded.", []⟩ =
      Except.ok (gotoErrDict "PlaywrightTimeoutError"
        "Timeout 30000ms exceeded.")) ∧
    (errorField (pydict [("error", pynone), ("error_message", pynone),
        ("data", pydict [("k", pyint 1)])]) = some pynone ∨
      errorField (pydict [("error", pynone), ("error_message", pynone),
        ("data", pydict [("k", pyint 1)])]) =
        some (pystr "PlaywrightInterceptError")) :=
  ⟨claim2_amended.1 cArgsOld _ _ rfl,
   claim2_amended.2.2.2.1 cArgsI cEnvGood _ ⟨rfl, rfl, rfl⟩ rfl⟩

/-- Claim C3 (amended): the poll loop of `intercept_json_playwright` exits
via `break` exactly when the read payload is non-empty and the
post-detection result's `error` value is not `"CaptchaRaisedError"` — even
when the error-detection callback reported an error (`is_error = True`)
with a different tag.  Otherwise it keeps iterating exactly while
`time_spent ≤ timeout` and `nb_refresh < max_refresh`, returning the
state (and so its last `result`) once that test fails. -/
theorem claim3_amended :
    (∀ (args : IJPArgs) (env : IJPEnv) (st : LoopSt) (p : PyVal)
      (ie : Bool) (r : PyVal) (ev : Option PyVal),
      iterRead args env st = Except.ok p →
      detectStage args.json_detect_error (mkResult p) = (ie, r) →
      pyGet r "error" = Except.ok ev →
      ((∃ s, iterBody args env st = Except.ok (Sum.inl s)) ↔
        (p.truthy = true ∧ isCaptchaStr ev = false))) ∧
    (∀ (args : IJPArgs) (env : IJPEnv) (fuel : Nat) (st : LoopSt),
      ¬(st.time_spent ≤ args.timeout ∧ st.nb_refresh < args.max_refresh) →
      pollLoop args env fuel st = Except.ok st) ∧
    (∀ (args : IJPArgs) (env : IJPEnv) (fuel : Nat) (st s : LoopSt),
      (st.time_spent ≤ args.timeout ∧ st.nb_refresh < args.max_refresh) →
      iterBody args env st = Except.ok (Sum.inr s) →
      pollLoop args env (fuel + 1) st = pollLoop args env fuel s) := by
  refine ⟨?_, ?_, ?_⟩
  · intro args env st p ie r ev hr hdet hg
    unfold iterBody
    rw [hr]
    dsimp only
    rw [hdet]
    dsimp only
    cases htr : p.truthy with
    | true =>
        rw [if_pos rfl, hg]
        dsimp only
        cases hc : isCaptchaStr ev with
        | true => simp
        | false => simp
    | false => simp
  · intro args env fuel st h
    exact pollLoop_stop args env fuel st h
  · intro args env fuel st s hcond hb
    simp only [pollLoop]
    rw [if_pos hcond, hb]

/-- Claim C3 counterexample: the claim as stated is false — the loop can
exit early even though the error-detection callback reported an error.  On
a concrete run whose callback returns `(True, {"error": "UnknownError"})`
for a non-empty payload, the loop stops after a single iteration
(`iters = 1`, `is_error = some true`) although neither the time budget nor
the refresh budget is exhausted. -/
theorem claim3_counterexample :
    ijpRun cArgsDetectErr cEnvGood =
      Except.ok (ijpOkState cArgsDetectErr cEnvGood (initSt cEnvGood)) ∧
    (ijpOkState cArgsDetectErr cEnvGood (initSt cEnvGood)).iters = 1 ∧
    (ijpOkState cArgsDetectErr cEnvGood (initSt cEnvGood)).is_error =
      some true ∧
    (ijpOkState cArgsDetectErr cEnvGood (initSt cEnvGood)).time_spent ≤
      cArgsDetectErr.timeout ∧
    (ijpOkState cArgsDetectErr cEnvGood (initSt cEnvGood)).nb_refresh <
      cArgsDetectErr.max_refresh :=
  ⟨rfl, rfl, rfl, by decide, by decide⟩

/-- Claim C3 witness: the amended break condition, budget exit and
continuation step applied at concrete loop states. -/
theorem claim3_witness :
    ((∃ s, iterBody cArgsI cEnvGood (initSt cEnvGood) =
        Except.ok (Sum.inl s)) ↔
      ((pydict [("k", pyint 1)]).truthy = true ∧
        isCaptchaStr (some pynone) = false)) ∧
    (pollLoop cArgsI cEnvGood 3
        ⟨pydict [], Option.none, Option.none, false, 5000, 0, 0⟩ =
      Except.ok ⟨pydict [], Option.none, Option.none, false, 5000, 0, 0⟩) ∧
    (pollLoop cArgsI cEnvQuiet (3 + 1) (initSt cEnvQuiet) =
      pollLoop cArgsI cEnvQuiet 3
        ⟨pydict [], some emptyJsonResult, some false, false, 500, 0, 1⟩) :=
  ⟨claim3_amended.1 cArgsI cEnvGood (initSt cEnvGood)
      (pydict [("k", pyint 1)]) false (mkResult (pydict [("k", pyint 1)]))
      (some pynone) rfl rfl rfl,
   claim3_amended.2.1 cArgsI cEnvGood 3
      ⟨pydict [], Option.none, Option.none, false, 5000, 0, 0⟩ (by decide),
   claim3_amended.2.2 cArgsI cEnvQuiet 3 (initSt cEnvQuiet)
      ⟨pydict [], some emptyJsonResult, some false, false, 500, 0, 1⟩
      (by decide) rfl⟩

/-- Claim C4: every completed poll-loop iteration of
`intercept_json_playwright` adds at least 500 ms to `time_spent` (the
sleep floor), so the loop performs at most `ceil(timeout/500) + 1`
iterations and terminates (running with any extra fuel beyond `stdFuel`
returns the same result); `intercept_json_playwright_old` and
`intercept_json_playwright_multiple` perform at most
`wait_seconds * 2` iterations of their fixed 500 ms wait loop. -/
theorem claim4_holds :
    (∀ (args : IJPArgs) (env : IJPEnv) (st' : LoopSt),
      ijpRun args env = Except.ok st' →
      st'.iters ≤ (args.timeout + 499) / 500 + 1) ∧
    (∀ (args : IJPArgs) (env : IJPEnv) (st s : LoopSt),
      iterBody args env st = Except.ok (Sum.inr s) →
      st.time_spent + 500 ≤ s.time_spent) ∧
    (∀ (args : IJPArgs) (env : IJPEnv) (k : Nat),
      pollLoop args env (stdFuel args + k) (initSt env) = ijpRun args env) ∧
    (∀ (args : OldArgs) (env : OldEnv) (st' : OldSt),
      oldLoopRun args env = Except.ok st' →
      st'.iters ≤ args.wait_seconds * 2) ∧
    (∀ (args : MultArgs) (env : OldEnv) (st' : MultSt),
      multLoopRun args env = Except.ok st' →
      st'.iters ≤ args.wait_seconds * 2) := by
  refine ⟨?_, ?_, ?_, ?_, ?_⟩
  · intro args env st' h
    have h1 := pollLoop_iters args env (stdFuel args) (initSt env) st'
      (by simp [initSt]) h
    have h2 : st'.iters ≤ args.timeout / 500 + 1 := by
      simpa [initSt] using h1
    have h3 : args.timeout / 500 ≤ (args.timeout + 499) / 500 :=
      Nat.div_le_div_right (by omega)
    omega
  · intro args env st s h
    exact (iterBody_inr args env st s h).2
  · intro args env k
    exact ijpRun_stable args env k
  · intro args env st' h
    have h' : oldLoop args env (args.wait_seconds * 2)
        { tj := pydict [], result := Option.none, iters := 0 } =
        Except.ok st' := h
    have := oldLoop_iters args env (args.wait_seconds * 2) _ st' h'
    simpa using this
  · intro args env st' h
    have h' : multLoop args env (args.wait_seconds * 2)
        { tj := pydict [], result := emptyJsonResult, is_error := true,
          expect_more := args.expect_more, iters := 0 } =
        Except.ok st' := h
    have := multLoop_iters args env (args.wait_seconds * 2) _ st' h'
    simpa using this

/-- Claim C4 witness: the bounds applied to concrete runs — the budget
bound and 500 ms step for `intercept_json_playwright`, fuel irrelevance
beyond `stdFuel`, and the `wait_seconds * 2` bound for the `_old` and
`_multiple` loops. -/
theorem claim4_witness :
    ((ijpOkState cArgsI cEnvGood (initSt cEnvGood)).iters ≤
      (cArgsI.timeout + 499) / 500 + 1) ∧
    ((initSt cEnvQuiet).time_spent + 500 ≤
      (⟨pydict [], some emptyJsonResult, some false, false, 500, 0,
        1⟩ : LoopSt).time_spent) ∧
    (pollLoop cArgsI cEnvGood (stdFuel cArgsI + 2) (initSt cEnvGood) =
      ijpRun cArgsI cEnvGood) ∧
    ((oldOkState cArgsOld cEnvOldGood
        ⟨pydict [], Option.none, 0⟩).iters ≤ cArgsOld.wait_seconds * 2) ∧
    ((multOkState cArgsMult cEnvOldGood
        ⟨pydict [], emptyJsonResult, true, 0, 0⟩).iters ≤
      cArgsMult.wait_seconds * 2) :=
  ⟨claim4_holds.1 cArgsI cEnvGood _ rfl,
   claim4_holds.2.1 cArgsI cEnvQuiet (initSt cEnvQuiet) _ rfl,
   claim4_holds.2.2.1 cArgsI cEnvGood 2,
   claim4_holds.2.2.2.1 cArgsOld cEnvOldGood _ rfl,
   claim4_holds.2.2.2.2 cArgsMult cEnvOldGood _ rfl⟩

/-- Claim C5 (amended): the response handlers buffer intercepted data as
follows.  When the decoded payload is a dict with no truthy `error` key it
is stored unchanged; when it is a dict with a truthy `error` value `v` the
stored value is `{error: "PlaywrightInterceptError", error_message: v,
data: {}}`; a non-dict payload (e.g. a JSON array) raises
`AttributeError` instead of being stored; non-matching URLs leave the
buffer untouched.  `construct_handle_response` / `set_json_to_page` store
into `page.target_json`, while the inline handler of
`intercept_json_playwright` stores under the `"data"` key of the
closure-local `target_json` dict. -/
theorem claim5_amended :
    (∀ fs, truthyOpt (alookup fs "error") = false →
      set_json_to_page (pydict fs) = Except.ok (pydict fs)) ∧
    (∀ fs v, alookup fs "error" = some v → v.truthy = true →
      set_json_to_page (pydict fs) = Except.ok
        (pydict [("error", pystr "PlaywrightInterceptError"),
          ("error_message", v), ("data", pydict [])])) ∧
    (∀ buffer, buffer.isDict = false →
      set_json_to_page buffer = Except.error PyErr.attributeError) ∧
    (∀ (sub : String) (ev : Event) (tjOpt : Option PyVal) (w : PyVal),
      strIn sub ev.url = true →
      set_json_to_page (bufferOf ev.respJson) = Except.ok w →
      construct_handle_response sub ev tjOpt = Except.ok (some w)) ∧
    (∀ (sub : String) (ev : Event) (tjOpt : Option PyVal),
      strIn sub ev.url = false →
      construct_handle_response sub ev tjOpt = Except.ok tjOpt) ∧
    (∀ (sub : String) (ev : Event) (tj : PyVal),
      strIn sub ev.url = false → applyEvent sub tj ev = Except.ok tj) ∧
    (∀ (sub : String) (ev : Event) (tjf fs : List (String × PyVal)),
      strIn sub ev.url = true → bufferOf ev.respJson = pydict fs →
      truthyOpt (alookup fs "error") = false →
      applyEvent sub (pydict tjf) ev =
        Except.ok (pydict (assocSet tjf "data" (pydict fs)))) ∧
    (∀ (sub : String) (ev : Event) (tjf fs : List (String × PyVal))
      (v : PyVal),
      strIn sub ev.url = true → bufferOf ev.respJson = pydict fs →
      alookup fs "error" = some v → v.truthy = true →
      applyEvent sub (pydict tjf) ev =
        Except.ok (pydict (assocSet tjf "data"
          (pydict [("error", pystr "PlaywrightInterceptError"),
            ("error_message", v), ("data", pydict [])])))) := by
  refine ⟨?_, ?_, ?_, ?_, ?_, ?_, ?_, ?_⟩
  · intro fs h
    unfold set_json_to_page
    dsimp only
    rw [h]
    rw [if_neg (by simp)]
  · intro fs v hl ht
    unfold set_json_to_page
    dsimp only
    rw [hl]
    simp only [truthyOpt]
    rw [if_pos ht]
    rfl
  · intro buffer hbd
    cases buffer with
    | pydict fs => simp [PyVal.isDict] at hbd
    | pynone => rfl
    | pybool b => rfl
    | pyint n => rfl
    | pystr s => rfl
    | pylist es => rfl
  · intro sub ev tjOpt w hm hset
    unfold construct_handle_response
    rw [hm]
    rw [if_pos rfl, hset]
  · intro sub ev tjOpt hm
    unfold construct_handle_response
    rw [hm]
    rw [if_neg (by simp)]
  · intro sub ev tj hm
    unfold applyEvent
    rw [hm]
    rw [if_neg (by simp)]
  · intro sub ev tjf fs hm hb he
    unfold applyEvent
    rw [hm]
    rw [if_pos rfl, hb]
    dsimp only
    rw [he]
    rw [if_neg (by simp)]
    rfl
  · intro sub ev tjf fs v hm hb hl ht
    unfold applyEvent
    rw [hm]
    rw [if_pos rfl, hb]
    dsimp only
    rw [hl]
    simp only [truthyOpt]
    rw [if_pos ht]
    rfl

/-- Claim C5 counterexample: the claim as stated is false — for a matching
response whose decoded payload is a JSON array (which has no truthy
`error` key), the handler does not set the buffer to the payload
unchanged: reading `buffer.get("error")` raises `AttributeError`. -/
theorem claim5_counterexample :
    construct_handle_response "a"
        ⟨"xax", Except.ok (pylist [])⟩ Option.none =
      Except.error PyErr.attributeError := rfl

/-- Claim C5 witness: the amended handler behaviour applied to a concrete
clean dict payload (stored unchanged by `set_json_to_page`, and stored
under the `"data"` key by the inline handler). -/
theorem claim5_witness :
    (set_json_to_page (pydict [("k", pyint 1)]) =
      Except.ok (pydict [("k", pyint 1)])) ∧
    (applyEvent "api" (pydict []) goodEvent =
      Except.ok (pydict (assocSet [] "data" (pydict [("k", pyint 1)])))) :=
  ⟨claim5_amended.1 [("k", pyint 1)] rfl,
   claim5_amended.2.2.2.2.2.2.1 "api" goodEvent [] [("k", pyint 1)]
     rfl rfl rfl⟩

/-- Claim C6 (amended): while the captured `marker` is still a string
(in particular on the first invocation), a `check_for_loaded_marker`
wrapper runs the wrapped function FIRST and only then builds the locator
from the (dot-normalised) selector and waits for its visibility — there is
no wait before the function runs; if visibility is not reached within the
timeout the wait raises a timeout error, and the marker cell is rebound to
the built locator either way. -/
theorem claim6_amended :
    ∀ (markerStrict : Bool) (tmo : Nat) (s : String) (env : CflmEnv),
      (check_for_loaded_marker_call markerStrict tmo (MarkerV.mstr s)
        env).1 =
        [PageAct.runFunc, PageAct.waitMarker (dotSel markerStrict s) tmo] ∧
      (check_for_loaded_marker_call markerStrict tmo (MarkerV.mstr s)
        env).2.1 = MarkerV.mloc (dotSel markerStrict s) ∧
      (env.markerVisible = true →
        (check_for_loaded_marker_call markerStrict tmo (MarkerV.mstr s)
          env).2.2 = Except.ok env.funcOut) ∧
      (env.markerVisible = false →
        (check_for_loaded_marker_call markerStrict tmo (MarkerV.mstr s)
          env).2.2 = Except.error PyErr.timeoutError) := by
  intro ms tmo s env
  cases hv : env.markerVisible <;>
    simp [check_for_loaded_marker_call, hv]

/-- Claim C6 counterexample: the claim as stated is false — the wrapper
does not wait for the marker before running the wrapped function.  On a
concrete first invocation the whole action trace is the function call
followed by a single visibility wait: no wait precedes the call. -/
theorem claim6_counterexample :
    (check_for_loaded_marker_call false 10000 (MarkerV.mstr "marker")
      ⟨7, true⟩).1 =
      [PageAct.runFunc, PageAct.waitMarker ".marker" 10000] := rfl

/-- Claim C6 witness: the amended claim applied to a concrete first
invocation whose marker never becomes visible. -/
theorem claim6_witness :
    (check_for_loaded_marker_call false 10000 (MarkerV.mstr "m")
      ⟨3, false⟩).2.2 = Except.error PyErr.timeoutError :=
  (claim6_amended false 10000 "m" ⟨3, false⟩).2.2.2 rfl

/-- Claim C7 (amended): a `catch_TimeoutError(exception_class, message)`
wrapper passes normal return values through unchanged.  When the wrapped
function raises the library's `TimeoutError` `te`, the wrapper builds
`exception_class(message)` and formats `"[<fname>] <m>:\n<str(te)>"` from
the INSTANCE's pre-existing `message` attribute `m` — so the claimed
message only results when `exception_class(message)` stores its argument
in `.message`; with the default bare `Exception` (no `message` attribute)
the attribute read raises `AttributeError` instead of an
`exception_class` instance. -/
theorem claim7_amended :
    (∀ (α : Type) (cls : PyExcClass) (msg fname : String) (a : α),
      catch_TimeoutError cls msg fname (Except.ok a) = CatchOutcome.ok a) ∧
    (∀ (α : Type) (cls : PyExcClass) (msg fname te : String),
      (cls.init msg).msgAttr = some msg →
      catch_TimeoutError (α := α) cls msg fname (Except.error te) =
        CatchOutcome.raisedInst ⟨(cls.init msg).args,
          some ("[" ++ fname ++ "] " ++ msg ++ ":\n" ++ te)⟩) ∧
    (∀ (α : Type) (msg fname te : String),
      catch_TimeoutError (α := α) pyBaseException msg fname
        (Except.error te) = CatchOutcome.attrError) := by
  refine ⟨?_, ?_, ?_⟩
  · intro α cls msg fname a
    rfl
  · intro α cls msg fname te h
    unfold catch_TimeoutError
    dsimp only
    rw [h]
  · intro α msg fname te
    rfl

/-- Claim C7 counterexample: the claim as stated is false — with the
decorator's default `exception_class = Exception`, the instance has no
`message` attribute, so catching a timeout raises `AttributeError`
instead of an `exception_class` instance carrying the formatted
message. -/
theorem claim7_counterexample :
    catch_TimeoutError (α := Nat) pyBaseException "custom timeout message"
        "my_func" (Except.error "Timeout 30000ms exceeded.") =
      CatchOutcome.attrError := rfl

/-- Claim C7 witness: the amended claim applied to a message-storing
exception class. -/
theorem claim7_witness :
    catch_TimeoutError (α := Nat) msgStoringException "m" "f"
        (Except.error "T") =
      CatchOutcome.raisedInst ⟨"m", some "[f] m:\nT"⟩ :=
  claim7_amended.2.1 Nat msgStoringException "m" "f" "T" rfl

/-- Claim C8: with a successfully navigating `page.goto` and the default
`json_detect_error = None`, `intercept_json_playwright_old` reads the
never-assigned local `is_error` in its final
`if (not is_error) and json_parse_result` branch and raises
`UnboundLocalError` instead of returning a result dictionary; the same
unbound read occurs in `intercept_json_playwright` whenever its poll-loop
body never executes (`max_refresh = 0`, or the `goto` already consumed
more than `timeout`). -/
theorem claim8_holds :
    (∀ (args : OldArgs) (env : OldEnv),
      args.json_detect_error = Option.none → env.goto = GotoOut.gok →
      eventsOk env.events = true →
      intercept_json_playwright_old args env =
        Except.error PyErr.unboundLocal) ∧
    (∀ (args : IJPArgs) (env : IJPEnv),
      args.max_refresh = 0 ∨ args.timeout < env.gotoDur →
      intercept_json_playwright args env =
        Except.error PyErr.unboundLocal) :=
  ⟨fun args env hd hg hev => old_unbound args env hd hg hev,
   fun args env hc => ijp_unbound args env hc⟩

/-- Claim C8 witness: the unbound-local read triggered on concrete
inputs — `_old` after a successful quiet navigation, and
`intercept_json_playwright` with `max_refresh = 0`. -/
theorem claim8_witness :
    (intercept_json_playwright_old cArgsOld ⟨GotoOut.gok, []⟩ =
      Except.error PyErr.unboundLocal) ∧
    (intercept_json_playwright { cArgsI with max_refresh := 0 } cEnvGood =
      Except.error PyErr.unboundLocal) :=
  ⟨claim8_holds.1 cArgsOld ⟨GotoOut.gok, []⟩ rfl rfl rfl,
   claim8_holds.2 { cArgsI with max_refresh := 0 } cEnvGood (Or.inl rfl)⟩

/-- Claim C9: a `with_page`-decorated function is not a deterministic
function of its per-call arguments: each call mutates the decorator's
captured kwargs dictionary (defaults inserted, then the call's keyword
arguments merged in), so an option supplied only in the first of two
successive calls is still applied when opening the browser for the second
call unless overridden there — and two second calls with identical
arguments can open differently-configured browsers depending on the first
call. -/
theorem claim9_holds :
    (∀ (kw0 fk1 fk2 : List (String × PyVal)) (k : String) (v : PyVal),
      lastVal fk1 k = some v → lastVal fk2 k = Option.none →
      alookup ((with_page_call ((with_page_call kw0 fk1).2) fk2).1) k =
        some v) ∧
    (alookup ((with_page_call
        ((with_page_call [] [("proxy_info", pystr "proxy1")]).2) []).1)
        "proxy_info" = some (pystr "proxy1") ∧
      alookup ((with_page_call ((with_page_call [] []).2) []).1)
        "proxy_info" = some pynone) := by
  constructor
  · intro kw0 fk1 fk2 k v h1 h2
    show alookup (kwUpdate (kwInsertDefaults
      (kwUpdate (kwInsertDefaults kw0) fk1)) fk2) k = some v
    have e2 := kwUpdate_lastVal k fk2
      (kwInsertDefaults (kwUpdate (kwInsertDefaults kw0) fk1))
    rw [h2] at e2
    dsimp only at e2
    rw [e2]
    have e1 := kwUpdate_lastVal k fk1 (kwInsertDefaults kw0)
    rw [h1] at e1
    dsimp only at e1
    exact foldl_defaults_pres k v withPageDefaults _ e1
  · exact ⟨rfl, rfl⟩

/-- Claim C9 witness: a `block_resources` option supplied only in the
first call persists into the second call's browser configuration. -/
theorem claim9_witness :
    alookup ((with_page_call ((with_page_call []
        [("block_resources", pybool false)]).2)
        [("headless", pybool false)]).1) "block_resources" =
      some (pybool false) :=
  claim9_holds.1 [] [("block_resources", pybool false)]
    [("headless", pybool false)] "block_resources" (pybool false) rfl rfl

/-- Claim C10: only invocations that still see a string marker build the
locator and wait: the wrapper rebinds the nonlocal `marker` cell to a
`Locator`, so every later invocation of the same decorated function fails
the `isinstance(marker, str)` test and returns the wrapped function's
output with no visibility wait at all (the whole trace is just the
function call). -/
theorem claim10_holds :
    (∀ (markerStrict : Bool) (tmo : Nat) (sel : String) (env : CflmEnv),
      check_for_loaded_marker_call markerStrict tmo (MarkerV.mloc sel)
        env = ([PageAct.runFunc], MarkerV.mloc sel,
          Except.ok env.funcOut)) ∧
    (∀ (markerStrict : Bool) (tmo : Nat) (s : String) (env : CflmEnv),
      (check_for_loaded_marker_call markerStrict tmo (MarkerV.mstr s)
        env).2.1 = MarkerV.mloc (dotSel markerStrict s)) ∧
    (∀ (markerStrict : Bool) (tmo : Nat) (env : CflmEnv),
      check_for_loaded_marker_call markerStrict tmo MarkerV.mnone env =
        ([PageAct.runFunc], MarkerV.mnone, Except.ok env.funcOut)) := by
  refine ⟨?_, ?_, ?_⟩
  · intro ms tmo sel env
    rfl
  · intro ms tmo s env
    cases hv : env.markerVisible <;>
      simp [check_for_loaded_marker_call, hv]
  · intro ms tmo env
    rfl
